import Mathlib

/-!
Verification development for the SnowGram visual-quality convergence engine.

Shallow embedding of the scoring, diagnosis and convergence-control logic of
`backend/tests/visual/eval_passes.py`, `backend/tests/visual/defect_classifier.py`
and `backend/tests/unified_convergence_loop.py`.

Modelling conventions:
* Python floats are modelled as rationals (`ℚ`); all arithmetic in the embedded
  code is elementary (+, -, *, /, comparisons).
* Pixel-level measurements (connected-component centroids, densities, text-region
  counts, ...) are the *inputs* of the embedded evaluators: each evaluator is a
  function of the values the image-metric helpers return, so a universally
  quantified theorem covers every image.
* Python string formatting such as `%.1f` / `:.1%` is abstracted to plain decimal
  rendering (`fmtQ` / `fmtPct`); apostrophe contractions appearing inside
  source message strings are expanded (does not, and so on).  These
  strings are only carried as data; no embedded logic depends on the elided
  formatting details.
* Python dicts are modelled as insertion-ordered association lists, matching
  dict iteration order.
-/

/-- Numeric formatting helper: Python format specifiers such as `%.1f` are
abstracted to plain decimal rendering of the rational. -/
def fmtQ (q : ℚ) : String := toString q

/-- Percentage rendering, abstracting the Python percent format specifiers. -/
def fmtPct (q : ℚ) : String := fmtQ (q * 100)

/-- Lower-casing of a string, embedding Python `str.lower()` (written over the
character list so that it evaluates inside the kernel). -/
def strLower (s : String) : String := ⟨s.data.map Char.toLower⟩

/-- Contiguous-subsequence test on character lists (helper for `strContains`). -/
def seqContains (pat : List Char) : List Char → Bool
  | [] => pat.isEmpty
  | c :: t => pat.isPrefixOf (c :: t) || seqContains pat t

/-- Substring containment, embedding the Python `pat in s` test on strings. -/
def strContains (s pat : String) : Bool := seqContains pat.toList s.toList

/-- Python `max` on two rationals, written so that it evaluates inside the
kernel; `pyMax_eq_max` below identifies it with `max`. -/
def pyMax (a b : ℚ) : ℚ := if a ≤ b then b else a

/-- Python `min` on two rationals, written so that it evaluates inside the
kernel; `pyMin_eq_min` below identifies it with `min`. -/
def pyMin (a b : ℚ) : ℚ := if a ≤ b then a else b

/-- Evaluation pass types with weights (`EvalPass` in eval_passes.py). -/
inductive EvalPass where
  | structure_
  | components
  | connections
  | styling
  | layout
  | badges
deriving DecidableEq, Repr

/-- Fixed relative weight of each pass (`EvalPass.weight`). -/
def EvalPass.weight : EvalPass → ℚ
  | .structure_ => 15 / 100
  | .components => 25 / 100
  | .connections => 20 / 100
  | .styling => 15 / 100
  | .layout => 15 / 100
  | .badges => 10 / 100

/-- String name of each pass (`EvalPass.name_str`). -/
def EvalPass.nameStr : EvalPass → String
  | .structure_ => "structure"
  | .components => "components"
  | .connections => "connections"
  | .styling => "styling"
  | .layout => "layout"
  | .badges => "badges"

/-- Result from a single evaluation pass (`PassResult` in eval_passes.py). -/
structure PassResult where
  pass_type : EvalPass
  score : ℚ
  findings : List String
  defects : List String
  suggestions : List String
deriving DecidableEq, Repr

/-- Weighted score of a pass (`PassResult.weighted_score`). -/
def PassResult.weightedScore (p : PassResult) : ℚ := p.score * p.pass_type.weight

/-- Complete evaluation result (`EvalResult` in eval_passes.py); `pass_results`
is the insertion-ordered dict mapping pass-name strings to pass results. -/
structure EvalResult where
  pass_results : List (String × PassResult)
  overall_score : ℚ
  converged : Bool
  iteration : ℕ
deriving DecidableEq, Repr

/-- Embeds `EvalResult.lowest_scoring_pass`, Python
`min(self.pass_results.values(), key=lambda p: p.score)`: `none` models the
`ValueError` that `min` raises on an empty dict; on a non-empty dict Python
returns the first value attaining the minimal score. -/
def EvalResult.lowestScoringPass (er : EvalResult) : Option PassResult :=
  match er.pass_results.map Prod.snd with
  | [] => none
  | r :: rest => some (rest.foldl (fun best p => if p.score < best.score then p else best) r)

/-- Zero-score `EvalResult` built by `UnifiedConvergenceLoop.run_single_iteration`
when the frontend render/capture step fails (unified_convergence_loop.py lines
781-787): note the empty `pass_results` dict. -/
def renderFailureEvalResult (iteration : ℕ) : EvalResult :=
  { pass_results := [], overall_score := 0, converged := false, iteration := iteration }

/-- Strict-evaluation threshold `MIN_CONTENT_DENSITY` of `VisualEvaluator`. -/
def minContentDensity : ℚ := 5 / 100

/-- Threshold `MAX_HORIZONTAL_BANDS` of `VisualEvaluator`. -/
def maxHorizontalBands : ℕ := 15

/-- Threshold `BADGE_LEFT_ZONE_THRESHOLD` of `VisualEvaluator`. -/
def badgeLeftZoneThreshold : ℚ := 30 / 100

/-- Threshold `BADGE_CENTER_ZONE_START` of `VisualEvaluator`. -/
def badgeCenterZoneStart : ℚ := 25 / 100

/-- Threshold `BADGE_CENTER_ZONE_END` of `VisualEvaluator`. -/
def badgeCenterZoneEnd : ℚ := 80 / 100

/-- Measured pixel statistics consumed by `_detect_layout_chaos`: overall
content density, the four quadrant densities, the three horizontal-third
densities and the count of nearly-empty cells of the 4x4 grid. -/
structure ChaosInputs where
  totalDensity : ℚ
  q1 : ℚ
  q2 : ℚ
  q3 : ℚ
  q4 : ℚ
  leftThird : ℚ
  middleThird : ℚ
  rightThird : ℚ
  emptyCells : ℕ
deriving DecidableEq, Repr

/-- Output of `_detect_layout_chaos` (the fields consumed downstream). -/
structure ChaosResult where
  chaosScore : ℚ
  isChaotic : Bool
  reasons : List String
  properFlow : Bool
  emptyFrac : ℚ
  densityVariance : ℚ
deriving DecidableEq, Repr

/-- Embeds `VisualEvaluator._detect_layout_chaos` (eval_passes.py lines
562-656) from the measured densities: four independent penalty signals are
summed into `chaos_score`, and `is_chaotic := chaos_score >= 40`. -/
def detectLayoutChaos (i : ChaosInputs) : ChaosResult :=
  let mean : ℚ := (i.q1 + i.q2 + i.q3 + i.q4) / 4
  let densityVariance : ℚ :=
    ((i.q1 - mean) ^ 2 + (i.q2 - mean) ^ 2 + (i.q3 - mean) ^ 2 + (i.q4 - mean) ^ 2) / 4
  let minThirdDensity : ℚ := if i.totalDensity > 2 / 100 then i.totalDensity * (3 / 10) else 1 / 100
  let properFlow : Bool :=
    decide (i.leftThird > minThirdDensity) && decide (i.middleThird > minThirdDensity)
      && decide (i.rightThird > minThirdDensity)
  let emptyFrac : ℚ := (i.emptyCells : ℚ) / 16
  let p1 : ℚ := if i.totalDensity < minContentDensity then 30 else 0
  let p2 : ℚ := if densityVariance > 1 / 100 then 20 else 0
  let p3 : ℚ := if properFlow then 0 else 25
  let p4 : ℚ := if emptyFrac > 4 / 10 then 25 else 0
  let chaosScore : ℚ := p1 + p2 + p3 + p4
  let reasons : List String :=
    (if i.totalDensity < minContentDensity
      then ["Low content density: " ++ fmtPct i.totalDensity] else [])
    ++ (if densityVariance > 1 / 100
      then ["Unbalanced quadrants (variance=" ++ fmtQ densityVariance ++ ")"] else [])
    ++ (if properFlow then [] else ["Missing left-to-right flow"])
    ++ (if emptyFrac > 4 / 10
      then ["Too many empty regions: " ++ fmtPct emptyFrac] else [])
  { chaosScore := chaosScore
    isChaotic := decide (chaosScore ≥ 40)
    reasons := reasons
    properFlow := properFlow
    emptyFrac := emptyFrac
    densityVariance := densityVariance }

/-- Badge-cluster centroids (from the connected-component labelling of the
purple and blue colour masks) plus the image width: the inputs consumed by
`_detect_badge_positions`. -/
structure PositionInputs where
  purpleCentroids : List (ℚ × ℚ)
  blueCentroids : List (ℚ × ℚ)
  width : ℚ
deriving DecidableEq, Repr

/-- Output of `_detect_badge_positions`. -/
structure PositionResult where
  purpleInLeftZone : ℕ
  purpleMisplaced : ℕ
  blueInCenterZone : ℕ
  blueMisplaced : ℕ
  positionQualityScore : ℚ
  totalBadgesFound : ℕ
deriving DecidableEq, Repr

/-- Embeds `VisualEvaluator._detect_badge_positions` (eval_passes.py lines
397-488) from the detected cluster centroids: zone classification and the
position-quality score, with `0` returned when no badges are found. -/
def detectBadgePositions (i : PositionInputs) : PositionResult :=
  let leftZoneEnd : ℚ := i.width * badgeLeftZoneThreshold
  let centerStart : ℚ := i.width * badgeCenterZoneStart
  let centerEnd : ℚ := i.width * badgeCenterZoneEnd
  let purpleIn : ℕ := (i.purpleCentroids.filter (fun c => decide (c.1 < leftZoneEnd))).length
  let blueIn : ℕ :=
    (i.blueCentroids.filter (fun c => decide (centerStart < c.1) && decide (c.1 < centerEnd))).length
  let totalBadges : ℕ := i.purpleCentroids.length + i.blueCentroids.length
  let correctlyPlaced : ℕ := purpleIn + blueIn
  let quality : ℚ :=
    if totalBadges > 0 then ((correctlyPlaced : ℚ) / (totalBadges : ℚ)) * 100 else 0
  { purpleInLeftZone := purpleIn
    purpleMisplaced := i.purpleCentroids.length - purpleIn
    blueInCenterZone := blueIn
    blueMisplaced := i.blueCentroids.length - blueIn
    positionQualityScore := quality
    totalBadgesFound := totalBadges }

/-- Measurements extracted from the generated image by the image-metric
helpers of `VisualEvaluator` (`_detect_empty_boxes`, `_compute_content_density`,
`_detect_text_regions`, `_detect_horizontal_coherence`, `_detect_badge_colors`,
`_detect_badge_positions` inputs, and the `_detect_layout_chaos` inputs). -/
structure GenInfo where
  emptyBoxes : List (ℕ × ℕ × ℕ × ℕ)
  density : ℚ
  textRegions : ℕ
  chaos : ChaosInputs
  cohBands : ℕ
  cohChaotic : Bool
  cohFrac : ℚ
  purpleBadges : ℕ
  blueBadges : ℕ
  purpleCentroids : List (ℚ × ℚ)
  blueCentroids : List (ℚ × ℚ)
  width : ℚ
deriving DecidableEq, Repr

/-- Measurements extracted from the reference image, plus the comparison
statistics (`_compute_ssim`, aspect-ratio difference) used in informational
findings. -/
structure RefInfo where
  density : ℚ
  textRegions : ℕ
  purpleBadges : ℕ
  blueBadges : ℕ
  ssimScore : ℚ
  aspectDiff : ℚ
deriving DecidableEq, Repr

/-- Measurements extracted from the Mermaid source text: each field abstracts
one of the substring / regex scans the evaluators run over `mermaid_code`. -/
structure CodeInfo where
  hasSubgraph : String → Bool
  hasComponent : String → Bool
  totalConnections : ℕ
  labeledEdges : ℕ
  hasFlowLabel : String → Bool
  hasClassDef : String → Bool
  hasColor : String → Bool
  styleCount : ℕ
  hasFlowchartLR : Bool
  hasFlowchartTB : Bool
  laneSubgraphCount : ℕ
  hasBadgeDef : String → Bool
  hasLaneBadgeClass : Bool
  hasSectionBadgeClass : Bool

/-- Inputs of one `VisualEvaluator.evaluate` call: the generated image is
optional (missing generated image is the `_load_images` failure path), the
reference image and the Mermaid source are optional exactly as in the source. -/
structure EvalInputs where
  gen : Option GenInfo
  ref : Option RefInfo
  code : Option CodeInfo

/-- Expected subgraph ids checked by `_eval_structure`. -/
def expectedSubgraphs : List String :=
  ["path_1a", "path_1b", "path_1c", "path_1d", "snowflake",
   "section_2", "section_3", "section_4", "section_5", "producer"]

/-- Expected component labels (`STREAMING_EXPECTED_COMPONENTS`). -/
def streamingExpectedComponents : List String :=
  ["Producer", "Kafka", "Firehose", "Kinesis", "Event Hubs", "Pub/Sub",
   "S3", "Azure Blob", "GCS", "Marketplace", "Snowpipe Streaming",
   "Snowpipe", "Native App", "Aggregation", "Serverless Tasks",
   "Normalized", "Dynamic", "Python Stored", "Instant",
   "Snowpark", "Container", "Analytics", "Streaming"]

/-- Expected badges (`STREAMING_EXPECTED_BADGES`): label, kind, colour. -/
def streamingExpectedBadges : List (String × String × String) :=
  [("1a", "lane", "#7C3AED"), ("1b", "lane", "#7C3AED"),
   ("1c", "lane", "#7C3AED"), ("1d", "lane", "#7C3AED"),
   ("2", "section", "#2563EB"), ("3", "section", "#2563EB"),
   ("4", "section", "#2563EB"), ("5", "section", "#2563EB")]

/-- Expected styling classes with colours checked by `_eval_styling`. -/
def stylingExpectedClasses : List (String × String) :=
  [("laneBadge", "#7C3AED"), ("sectionBadge", "#2563EB")]

/-- Visual penalty accumulated by `_eval_structure` (the sequential
`score -= ...` steps of its image-analysis section, written as one sum). -/
def structureVisualPenalty (gen : Option GenInfo) (ref : Option RefInfo) : ℚ :=
  match gen with
  | some g =>
    (if g.emptyBoxes.length > 0 then pyMin 40 ((g.emptyBoxes.length : ℚ) * 10) else 0)
    + (if g.density < 10 / 100 then 25 else if g.density < 15 / 100 then 10 else 0)
    + (match ref with
       | some r => if |r.density - g.density| > 20 / 100 then 15 else 0
       | none => 0)
  | none => 30

/-- Code penalty accumulated by `_eval_structure`. -/
def structureCodePenalty (code : Option CodeInfo) : ℚ :=
  match code with
  | some c =>
    let found := (expectedSubgraphs.filter c.hasSubgraph).length
    let missing := expectedSubgraphs.length - found
    if missing > 0 then pyMin 20 ((missing : ℚ) * 2) else 0
  | none => 0

/-- Embeds `VisualEvaluator._eval_structure` (eval_passes.py lines 694-778). -/
def evalStructure (gen : Option GenInfo) (ref : Option RefInfo) (code : Option CodeInfo) :
    PassResult :=
  let score : ℚ := pyMax 0 (100 - structureVisualPenalty gen ref - structureCodePenalty code)
  let visualFindings : List String :=
    match gen with
    | some g =>
      (if g.emptyBoxes.length > 0
        then ["Empty box regions detected at: " ++ toString (g.emptyBoxes.take 3)]
        else ["VISUAL: No empty placeholder boxes detected"])
      ++ ["VISUAL: Content density: " ++ fmtPct g.density ++ "%"]
      ++ (match ref with
          | some r =>
            ["VISUAL: Reference density: " ++ fmtPct r.density ++ "%, diff: "
              ++ fmtPct (|r.density - g.density|) ++ "%"]
          | none => [])
    | none => []
  let visualDefects : List String :=
    match gen with
    | some g =>
      (if g.emptyBoxes.length > 0
        then ["VISUAL: Found " ++ toString g.emptyBoxes.length ++ " empty/placeholder boxes"]
        else [])
      ++ (if g.density < 10 / 100
          then ["VISUAL: Very low content density (" ++ fmtPct g.density
            ++ "%) - diagram may be mostly empty"]
          else if g.density < 15 / 100
          then ["VISUAL: Low content density (" ++ fmtPct g.density ++ "%) - missing content"]
          else [])
      ++ (match ref with
          | some r =>
            if |r.density - g.density| > 20 / 100
              then ["VISUAL: Content density differs significantly from reference ("
                ++ fmtPct (|r.density - g.density|) ++ "%)"]
              else []
          | none => [])
    | none => ["VISUAL: No generated image to analyze"]
  let codeDefects : List String :=
    match code with
    | some c =>
      (expectedSubgraphs.filter (fun sg => !(c.hasSubgraph sg))).map
        (fun sg => "CODE: Missing subgraph: " ++ sg)
    | none => []
  let codeFindings : List String :=
    match code with
    | some c =>
      ["CODE: Found " ++ toString (expectedSubgraphs.filter c.hasSubgraph).length ++ "/"
        ++ toString expectedSubgraphs.length ++ " expected subgraphs"]
    | none => []
  let defects := visualDefects ++ codeDefects
  { pass_type := EvalPass.structure_
    score := score
    findings := visualFindings ++ codeFindings
    defects := defects
    suggestions :=
      if defects.isEmpty then []
      else ["Check for rendering issues causing empty boxes",
            "Ensure all lanes and sections are defined as subgraphs"] }

/-- Visual penalty accumulated by `_eval_components`. -/
def componentsVisualPenalty (gen : Option GenInfo) (ref : Option RefInfo) : ℚ :=
  match gen with
  | some g =>
    (match ref with
     | some r =>
       if (g.textRegions : ℚ) < (r.textRegions : ℚ) * (15 / 100) then 20
       else if (g.textRegions : ℚ) < (r.textRegions : ℚ) * (25 / 100) then 10
       else 0
     | none => 0)
    + (if g.textRegions < 15 then 20 else 0)
  | none => 25

/-- Embeds `VisualEvaluator._generate_component_suggestions`; the source wraps
`snowflake_docs` and the architecture phrase in single quotes, elided here. -/
def generateComponentSuggestions (defects : List String) : List String :=
  (defects.take 3).map (fun d =>
    let component := d.replace "Missing: " ""
    "Add " ++ component ++ " node - search snowflake_docs for " ++ component ++ " architecture")

/-- Running score of `_eval_components` before the final clamp: `100` minus
the visual penalties, then capped by the code-coverage bound
`min(score, 50 + code_score)` when components are missing. -/
def componentsRawScore (gen : Option GenInfo) (ref : Option RefInfo)
    (code : Option CodeInfo) : ℚ :=
  let sVisual : ℚ := 100 - componentsVisualPenalty gen ref
  match code with
  | some c =>
    let found := (streamingExpectedComponents.filter c.hasComponent).length
    let coverage : ℚ := (found : ℚ) / (streamingExpectedComponents.length : ℚ)
    if found < streamingExpectedComponents.length then pyMin sVisual (50 + coverage * 50)
    else sVisual
  | none => sVisual

/-- Embeds `VisualEvaluator._eval_components` (eval_passes.py lines 780-852);
the final score is clamped by `max(0, min(100, score))`. -/
def evalComponents (gen : Option GenInfo) (ref : Option RefInfo) (code : Option CodeInfo) :
    PassResult :=
  let visualFindings : List String :=
    match gen with
    | some g =>
      ["VISUAL: Detected ~" ++ toString g.textRegions ++ " text/label regions"]
      ++ (match ref with
          | some r => ["VISUAL: Reference has ~" ++ toString r.textRegions ++ " text regions"]
          | none => [])
    | none => []
  let visualDefects : List String :=
    match gen with
    | some g =>
      (match ref with
       | some r =>
         if (g.textRegions : ℚ) < (r.textRegions : ℚ) * (15 / 100)
           then ["VISUAL: Very few labels compared to reference (" ++ toString g.textRegions
             ++ " vs " ++ toString r.textRegions ++ ")"]
           else if (g.textRegions : ℚ) < (r.textRegions : ℚ) * (25 / 100)
           then ["VISUAL: Fewer labels than reference (" ++ toString g.textRegions
             ++ " vs " ++ toString r.textRegions ++ ")"]
           else []
       | none => [])
      ++ (if g.textRegions < 15
          then ["VISUAL: Too few visible labels (" ++ toString g.textRegions
            ++ " < 15 expected)"]
          else [])
    | none => ["VISUAL: No generated image for component analysis"]
  let codeFindings : List String :=
    match code with
    | some c =>
      let found := (streamingExpectedComponents.filter c.hasComponent).length
      let coverage : ℚ := (found : ℚ) / (streamingExpectedComponents.length : ℚ)
      ["CODE: Component coverage: " ++ toString found ++ "/"
        ++ toString streamingExpectedComponents.length ++ " (" ++ fmtPct coverage ++ "%)"]
    | none => []
  let codeDefects : List String :=
    match code with
    | some c =>
      let missingComponents := streamingExpectedComponents.filter (fun x => !(c.hasComponent x))
      if missingComponents.isEmpty then []
      else ["CODE: Missing " ++ toString missingComponents.length ++ " components: "
        ++ String.intercalate ", " (missingComponents.take 5)]
    | none => []
  let defects := visualDefects ++ codeDefects
  { pass_type := EvalPass.components
    score := pyMax 0 (pyMin 100 (componentsRawScore gen ref code))
    findings := visualFindings ++ codeFindings
    defects := defects
    suggestions := generateComponentSuggestions defects }

/-- Expected flow labels checked by `_eval_connections`. -/
def expectedFlowLabels : List String := ["Streaming", "Batch", "row-set"]

/-- Penalty accumulated by `_eval_connections` over the Mermaid code. -/
def connectionsPenalty (c : CodeInfo) : ℚ :=
  (if c.totalConnections ≥ 25 then 0 else 20)
    + 5 * ((expectedFlowLabels.filter (fun l => !(c.hasFlowLabel l))).length : ℚ)

/-- Embeds `VisualEvaluator._eval_connections` (eval_passes.py lines 866-923):
source-text-only scoring; with no Mermaid code the score is set to 75. -/
def evalConnections (code : Option CodeInfo) : PassResult :=
  match code with
  | some c =>
    let missingLabels := expectedFlowLabels.filter (fun l => !(c.hasFlowLabel l))
    let score : ℚ := pyMax 0 (100 - connectionsPenalty c)
    let findings : List String :=
      ["Total connections found: " ++ toString c.totalConnections,
       "Labeled edges: " ++ toString c.labeledEdges]
      ++ (if c.totalConnections ≥ 25 then ["Connection count meets minimum (25)"] else [])
      ++ (expectedFlowLabels.filter c.hasFlowLabel).map (fun l => "Found flow label: " ++ l)
    let defects : List String :=
      (if c.totalConnections ≥ 25 then []
       else ["Insufficient connections: " ++ toString c.totalConnections ++ " < 25"])
      ++ missingLabels.map (fun l => "Missing flow label: " ++ l)
    { pass_type := EvalPass.connections
      score := score
      findings := findings
      defects := defects
      suggestions := if defects.isEmpty then [] else ["Add edge labels for data flow types"] }
  | none =>
    { pass_type := EvalPass.connections
      score := pyMax 0 75
      findings := []
      defects := []
      suggestions := [] }

/-- Per-class penalty of `_eval_styling`: 15 for a missing classDef, 10 for a
wrong colour. -/
def stylingClassPenalty (c : CodeInfo) (p : String × String) : ℚ :=
  if c.hasClassDef p.1 then (if c.hasColor p.2 then 0 else 10) else 15

/-- Penalty accumulated by `_eval_styling` over the Mermaid code. -/
def stylingPenalty (c : CodeInfo) : ℚ :=
  (stylingExpectedClasses.map (stylingClassPenalty c)).sum
    + (if c.styleCount < 5 then 10 else 0)

/-- Embeds `VisualEvaluator._eval_styling` (eval_passes.py lines 925-975):
classDef presence and colour checks plus the subgraph-style count; with no
Mermaid code the score is set to 70. -/
def evalStyling (code : Option CodeInfo) : PassResult :=
  match code with
  | some c =>
    let classChecks : List (List String × List String) :=
      stylingExpectedClasses.map (fun p =>
        if c.hasClassDef p.1 then
          if c.hasColor p.2 then
            (["Found classDef: " ++ p.1, "  Color correct: " ++ p.2], [])
          else
            (["Found classDef: " ++ p.1],
             ["Wrong color for " ++ p.1 ++ ", expected " ++ p.2])
        else ([], ["Missing classDef: " ++ p.1]))
    let score : ℚ := pyMax 0 (100 - stylingPenalty c)
    let findings : List String :=
      (classChecks.map (fun t => t.1)).flatten
      ++ ["Subgraph styles found: " ++ toString c.styleCount]
    let defects : List String :=
      (classChecks.map (fun t => t.2)).flatten
      ++ (if c.styleCount < 5 then ["Insufficient subgraph styling"] else [])
    { pass_type := EvalPass.styling
      score := score
      findings := findings
      defects := defects
      suggestions :=
        if defects.isEmpty then [] else ["Add classDef for lane and section badges"] }
  | none =>
    { pass_type := EvalPass.styling
      score := pyMax 0 70
      findings := []
      defects := []
      suggestions := [] }

/-- Visual penalty of `_eval_layout`: chaos, coherence, band count and flow. -/
def layoutVisualPenalty (gen : Option GenInfo) : ℚ :=
  match gen with
  | some g =>
    let cr := detectLayoutChaos g.chaos
    (if cr.isChaotic then 40 else 0)
      + (if g.cohChaotic then 20 else 0)
      + (if g.cohBands < 3 then 15 else if g.cohBands > maxHorizontalBands then 10 else 0)
      + (if cr.properFlow then 0 else 15)
  | none => 0

/-- Penalty of the SSIM section of `_eval_layout`: 10 when the reference image
is missing, 50 when the generated image is missing. -/
def layoutSsimPenalty (gen : Option GenInfo) (ref : Option RefInfo) : ℚ :=
  match gen, ref with
  | some _, some _ => 0
  | some _, none => 10
  | none, _ => 50

/-- Code penalty of `_eval_layout`: flowchart direction and lane subgraphs. -/
def layoutCodePenalty (code : Option CodeInfo) : ℚ :=
  match code with
  | some c =>
    (if c.hasFlowchartLR then 0 else if c.hasFlowchartTB then 10 else 0)
      + (if c.laneSubgraphCount < 4 then 5 else 0)
  | none => 0

/-- Embeds `VisualEvaluator._eval_layout` (eval_passes.py lines 977-1076):
chaos detection, horizontal coherence, left-to-right flow, the informational
SSIM section and the source-text direction checks. -/
def evalLayout (gen : Option GenInfo) (ref : Option RefInfo) (code : Option CodeInfo) :
    PassResult :=
  let visual : List String × List String :=
    match gen with
    | some g =>
      let cr := detectLayoutChaos g.chaos
      let chaosFindings :=
        ["VISUAL: Chaos score: " ++ fmtQ cr.chaosScore ++ "/100"]
        ++ (if cr.isChaotic then [] else ["VISUAL: Layout organization is acceptable"])
      let chaosDefects :=
        if cr.isChaotic then
          ("VISUAL: CHAOTIC LAYOUT DETECTED (score=" ++ fmtQ cr.chaosScore ++ ")")
            :: cr.reasons.map (fun r => "  - " ++ r)
        else []
      let cohFindings :=
        ["VISUAL: Horizontal bands: " ++ toString g.cohBands ++ " (expected: 4)",
         "VISUAL: Coherence ratio: " ++ fmtPct g.cohFrac ++ "%"]
      let cohDefects :=
        (if g.cohChaotic then ["VISUAL: Content not organized in horizontal lanes"] else [])
        ++ (if g.cohBands < 3
            then ["VISUAL: Missing horizontal lane structure (found "
              ++ toString g.cohBands ++ ")"]
            else if g.cohBands > maxHorizontalBands
            then ["VISUAL: Too many fragmented bands (" ++ toString g.cohBands
              ++ ") - layout may be scattered"]
            else [])
      let flowFindings :=
        if cr.properFlow then ["VISUAL: Left-to-right flow verified"] else []
      let flowDefects :=
        if cr.properFlow then [] else ["VISUAL: Content does not span left-to-right properly"]
      (chaosFindings ++ cohFindings ++ flowFindings,
       chaosDefects ++ cohDefects ++ flowDefects)
    | none => ([], [])
  let ssim : List String × List String :=
    match gen, ref with
    | some _, some r =>
      (["VISUAL: SSIM similarity to reference: " ++ fmtPct r.ssimScore
          ++ "% (informational)",
        "VISUAL: Aspect ratio diff: " ++ fmtQ r.aspectDiff ++ " (informational)"], [])
    | some _, none => ([], ["VISUAL: No reference image for SSIM comparison"])
    | none, _ => ([], ["VISUAL: No generated image for layout analysis"])
  let codePart : List String × List String :=
    match code with
    | some c =>
      let dirFindings :=
        if c.hasFlowchartLR then ["CODE: Flowchart direction: Left-to-Right (correct)"] else []
      let dirDefects :=
        if c.hasFlowchartLR then []
        else if c.hasFlowchartTB then ["CODE: Flowchart direction is TB, should be LR"]
        else []
      let laneDefects :=
        if c.laneSubgraphCount < 4
          then ["CODE: Missing lane subgraphs: expected 4, found "
            ++ toString c.laneSubgraphCount]
          else []
      (dirFindings, dirDefects ++ laneDefects)
    | none => ([], [])
  let defects := visual.2 ++ ssim.2 ++ codePart.2
  { pass_type := EvalPass.layout
    score := pyMax 0 (100 - layoutVisualPenalty gen - layoutSsimPenalty gen ref
      - layoutCodePenalty code)
    findings := visual.1 ++ ssim.1 ++ codePart.1
    defects := defects
    suggestions :=
      if defects.isEmpty then []
      else ["Use $lane-layout-debugger skill for layout issues",
            "Ensure content flows left-to-right in horizontal lanes",
            "Check that badges are positioned correctly (purple=left, blue=center)",
            "Compare visual output with reference PDF Page 4"] }

/-- Badge-position inputs derived from the generated-image measurements. -/
def badgePositionInputs (g : GenInfo) : PositionInputs :=
  { purpleCentroids := g.purpleCentroids, blueCentroids := g.blueCentroids, width := g.width }

/-- Visual penalty of `_eval_badges`: zone-ratio penalties, presence-count
penalties and the overall position-quality penalty. -/
def badgesVisualPenalty (gen : Option GenInfo) : ℚ :=
  match gen with
  | some g =>
    let pos := detectBadgePositions (badgePositionInputs g)
    let totalPurple := pos.purpleInLeftZone + pos.purpleMisplaced
    let totalBlue := pos.blueInCenterZone + pos.blueMisplaced
    let purpleFrac : ℚ := (pos.purpleInLeftZone : ℚ) / (totalPurple : ℚ)
    let blueFrac : ℚ := (pos.blueInCenterZone : ℚ) / (totalBlue : ℚ)
    (if totalPurple > 0 then
       if purpleFrac < 1 / 2 then 25 else if purpleFrac < 7 / 10 then 15 else 0
     else 0)
    + (if totalBlue > 0 then
         if blueFrac < 4 / 10 then 20 else if blueFrac < 6 / 10 then 10 else 0
       else 0)
    + (if g.purpleBadges = 0 then 35
       else if g.purpleBadges < 4 then ((4 - g.purpleBadges : ℕ) : ℚ) * 10 else 0)
    + (if g.blueBadges = 0 then 30
       else if g.blueBadges < 4 then ((4 - g.blueBadges : ℕ) : ℚ) * 8 else 0)
    + (if pos.positionQualityScore < 50 then 20
       else if pos.positionQualityScore < 75 then 10 else 0)
  | none => 40

/-- Code penalty of `_eval_badges`: missing badge styling classes. -/
def badgesCodePenalty (code : Option CodeInfo) : ℚ :=
  match code with
  | some c => if c.hasLaneBadgeClass && c.hasSectionBadgeClass then 0 else 5
  | none => 0

/-- Embeds `VisualEvaluator._eval_badges` (eval_passes.py lines 1078-1213):
badge presence counts, badge position-quality ratios and the code-side badge
class checks. -/
def evalBadges (gen : Option GenInfo) (ref : Option RefInfo) (code : Option CodeInfo) :
    PassResult :=
  let visual : List String × List String :=
    match gen with
    | some g =>
      let pos := detectBadgePositions (badgePositionInputs g)
      let quality := pos.positionQualityScore
      let totalPurple := pos.purpleInLeftZone + pos.purpleMisplaced
      let totalBlue := pos.blueInCenterZone + pos.blueMisplaced
      let presenceFindings :=
        ["VISUAL: Purple badges detected: ~" ++ toString g.purpleBadges ++ " (expected: 4)",
         "VISUAL: Blue badges detected: ~" ++ toString g.blueBadges ++ " (expected: 4)",
         "VISUAL: Badge position quality: " ++ fmtQ quality ++ "%"]
      let purpleFrac : ℚ := (pos.purpleInLeftZone : ℚ) / (totalPurple : ℚ)
      let blueFrac : ℚ := (pos.blueInCenterZone : ℚ) / (totalBlue : ℚ)
      let purpleZone : List String × List String :=
        if totalPurple > 0 then
          if purpleFrac < 1 / 2 then
            ([], ["VISUAL: Only " ++ fmtPct purpleFrac
              ++ "% of purple badges in left zone - SCATTERED!"])
          else if purpleFrac < 7 / 10 then
            ([], ["VISUAL: " ++ fmtPct purpleFrac
              ++ "% purple badges in left zone (need >70%)"])
          else
            (["VISUAL: Purple badges well-positioned (" ++ fmtPct purpleFrac
              ++ "% in left zone)"], [])
        else ([], [])
      let blueZone : List String × List String :=
        if totalBlue > 0 then
          if blueFrac < 4 / 10 then
            ([], ["VISUAL: Only " ++ fmtPct blueFrac
              ++ "% of blue badges in center zone - SCATTERED!"])
          else if blueFrac < 6 / 10 then
            ([], ["VISUAL: " ++ fmtPct blueFrac
              ++ "% blue badges in center zone (need >60%)"])
          else
            (["VISUAL: Blue badges well-positioned (" ++ fmtPct blueFrac
              ++ "% in center zone)"], [])
        else ([], [])
      let purpleCount : List String :=
        if g.purpleBadges = 0 then ["VISUAL: NO purple lane badges detected!"]
        else if g.purpleBadges < 4 then
          ["VISUAL: Missing " ++ toString (4 - g.purpleBadges) ++ " purple lane badge(s)"]
        else []
      let blueCount : List String :=
        if g.blueBadges = 0 then ["VISUAL: NO blue section badges detected!"]
        else if g.blueBadges < 4 then
          ["VISUAL: Missing " ++ toString (4 - g.blueBadges) ++ " blue section badge(s)"]
        else []
      let qualityPart : List String :=
        if quality < 50 then
          ["VISUAL: Badge positions are POOR (" ++ fmtQ quality
            ++ "%) - layout quality issue"]
        else if quality < 75 then
          ["VISUAL: Badge positions need improvement (" ++ fmtQ quality ++ "%)"]
        else []
      let refFindings :=
        match ref with
        | some r =>
          ["VISUAL: Reference badges - purple: ~" ++ toString r.purpleBadges
            ++ ", blue: ~" ++ toString r.blueBadges ++ " (informational)"]
        | none => []
      (presenceFindings ++ purpleZone.1 ++ blueZone.1 ++ refFindings,
       purpleZone.2 ++ blueZone.2 ++ purpleCount ++ blueCount ++ qualityPart)
    | none => ([], ["VISUAL: No generated image for badge detection"])
  let codePart : List String × List String :=
    match code with
    | some c =>
      let badgesInCode := (streamingExpectedBadges.filter (fun b => c.hasBadgeDef b.1)).length
      let countFinding :=
        ["CODE: " ++ toString badgesInCode ++ "/"
          ++ toString streamingExpectedBadges.length ++ " badges defined in code"]
      if c.hasLaneBadgeClass && c.hasSectionBadgeClass then
        (countFinding ++ ["CODE: Badge styling classes defined"], [])
      else
        (countFinding, ["CODE: Missing badge styling classes (laneBadge/sectionBadge)"])
    | none => ([], [])
  let defects := visual.2 ++ codePart.2
  { pass_type := EvalPass.badges
    score := pyMax 0 (100 - badgesVisualPenalty gen - badgesCodePenalty code)
    findings := visual.1 ++ codePart.1
    defects := defects
    suggestions :=
      if defects.isEmpty then []
      else ["Check that all 8 badges (1a-1d purple, 2-5 blue) render visually",
            "Verify badge colors match: purple=#7C3AED, blue=#2563EB",
            "Use invisible connections (~~~) for badge positioning"] }

/-- Default `target_score` of the `VisualEvaluator` constructor. -/
def defaultTargetScore : ℚ := 95

/-- Embeds `VisualEvaluator.evaluate` (eval_passes.py lines 658-692): runs the
six passes, sums the weighted scores, and compares against the target. -/
def evaluate (targetScore : ℚ) (iteration : ℕ) (inp : EvalInputs) : EvalResult :=
  let passResults : List (String × PassResult) :=
    [("structure", evalStructure inp.gen inp.ref inp.code),
     ("components", evalComponents inp.gen inp.ref inp.code),
     ("connections", evalConnections inp.code),
     ("styling", evalStyling inp.code),
     ("layout", evalLayout inp.gen inp.ref inp.code),
     ("badges", evalBadges inp.gen inp.ref inp.code)]
  let overall : ℚ := (passResults.map (fun e => e.2.weightedScore)).sum
  { pass_results := passResults
    overall_score := overall
    converged := decide (overall ≥ targetScore)
    iteration := iteration }

/-- Where a defect needs to be fixed (`DefectSource` in defect_classifier.py). -/
inductive DefectSource where
  | backend
  | frontend
  | unknown
deriving DecidableEq, Repr

/-- Specific defect categories (`DefectType` in defect_classifier.py). -/
inductive DefectType where
  | missingNode
  | wrongLabel
  | missingSubgraph
  | missingBadge
  | wrongConnection
  | badSyntax
  | wrongColumn
  | badSpacing
  | wrongHandle
  | wrongColor
  | missingIcon
  | layoutOverflow
deriving DecidableEq, Repr

/-- Serialized value of each defect type (`DefectType(...).value`). -/
def DefectType.value : DefectType → String
  | .missingNode => "missing_node"
  | .wrongLabel => "wrong_label"
  | .missingSubgraph => "missing_subgraph"
  | .missingBadge => "missing_badge"
  | .wrongConnection => "wrong_connection"
  | .badSyntax => "bad_syntax"
  | .wrongColumn => "wrong_column"
  | .badSpacing => "bad_spacing"
  | .wrongHandle => "wrong_handle"
  | .wrongColor => "wrong_color"
  | .missingIcon => "missing_icon"
  | .layoutOverflow => "layout_overflow"

/-- A single identified defect (`Defect` in defect_classifier.py); the
free-form `evidence` dict, which is never populated in this module, is
omitted. -/
structure Defect where
  source : DefectSource
  defect_type : DefectType
  passType : String
  description : String
  severity : ℚ
  fixTarget : String
  fixHint : String
deriving DecidableEq, Repr

/-- Complete diagnosis of evaluation results (`DiagnosisResult`). -/
structure DiagnosisResult where
  defects : List Defect
  primarySource : DefectSource
  backendDefects : List Defect
  frontendDefects : List Defect
  recommendedFixes : List String
deriving DecidableEq, Repr

/-- Mapping of pass-type strings to likely defect sources
(`PASS_TO_SOURCE_MAP`, read with `.get(pass_type, DefectSource.UNKNOWN)`). -/
def passToSourceMap (name : String) : DefectSource :=
  if name = "structure" then .backend
  else if name = "components" then .backend
  else if name = "badges" then .backend
  else if name = "layout" then .frontend
  else if name = "connections" then .frontend
  else if name = "styling" then .frontend
  else .unknown

/-- Fix targets for frontend defects (`FRONTEND_FIX_TARGETS`); the source dict
only carries the six frontend defect types, all other keys are absent. -/
def frontendFixTargets : DefectType → String
  | .wrongColumn => "frontend/src/lib/elkLayoutUtils.ts"
  | .badSpacing => "frontend/src/lib/layoutUtils.ts"
  | .wrongHandle => "frontend/src/lib/elkLayout.ts"
  | .wrongColor => "frontend/src/lib/mermaidToReactFlow.ts"
  | .missingIcon => "frontend/src/lib/iconResolver.ts"
  | .layoutOverflow => "frontend/src/lib/elkLayout.ts"
  | _ => ""

/-- Embeds `DefectClassifier._rule_based_classification` (defect_classifier.py
lines 203-342): deterministic rules keyed on the pass type and substrings of
the joined lower-cased findings.  The `defaultSource` parameter is accepted
and unused, exactly as in the source. -/
def ruleBasedClassification (passType : String) (pr : PassResult)
    (_defaultSource : DefectSource) (severity : ℚ) : List Defect :=
  let findings : String :=
    if pr.findings.isEmpty then "" else String.intercalate " " pr.findings
  let fl := strLower findings
  if passType = "structure" then
    if strContains fl "subgraph" || strContains fl "missing" then
      [{ source := .backend, defect_type := .missingSubgraph, passType := passType,
         description := findings, severity := severity,
         fixTarget := "ARCHITECTURE_TEMPLATES",
         fixHint := "Add missing subgraph definitions to Mermaid code" }]
    else
      [{ source := .backend, defect_type := .missingSubgraph, passType := passType,
         description := if findings = "" then "Structure mismatch" else findings,
         severity := severity, fixTarget := "ARCHITECTURE_TEMPLATES",
         fixHint := "Review subgraph organization in template" }]
  else if passType = "components" then
    if strContains fl "missing" || strContains fl "node" then
      [{ source := .backend, defect_type := .missingNode, passType := passType,
         description := findings, severity := severity,
         fixTarget := "ARCHITECTURE_TEMPLATES",
         fixHint := "Add missing node definitions to Mermaid code" }]
    else
      [{ source := .backend, defect_type := .missingNode, passType := passType,
         description := if findings = "" then "Component mismatch" else findings,
         severity := severity, fixTarget := "ARCHITECTURE_TEMPLATES",
         fixHint := "Review node definitions in template" }]
  else if passType = "badges" then
    [{ source := .backend, defect_type := .missingBadge, passType := passType,
       description := if findings = "" then "Missing badges" else findings,
       severity := severity, fixTarget := "ARCHITECTURE_TEMPLATES",
       fixHint := "Add missing badge nodes (e.g., badge_1a, badge_2) with :::laneBadge or :::sectionBadge class" }]
  else if passType = "layout" then
    if strContains fl "column" || strContains fl "position" then
      [{ source := .frontend, defect_type := .wrongColumn, passType := passType,
         description := findings, severity := severity,
         fixTarget := frontendFixTargets .wrongColumn,
         fixHint := "Adjust getFlowStageOrder() rules in elkLayoutUtils.ts" }]
    else if strContains fl "spacing" then
      [{ source := .frontend, defect_type := .badSpacing, passType := passType,
         description := findings, severity := severity,
         fixTarget := frontendFixTargets .badSpacing,
         fixHint := "Adjust LAYOUT_CONSTANTS in layoutUtils.ts" }]
    else
      [{ source := .frontend, defect_type := .wrongColumn, passType := passType,
         description := if findings = "" then "Layout mismatch" else findings,
         severity := severity, fixTarget := frontendFixTargets .wrongColumn,
         fixHint := "Review ELK layout configuration" }]
  else if passType = "connections" then
    if strContains fl "handle" || strContains fl "direction" then
      [{ source := .frontend, defect_type := .wrongHandle, passType := passType,
         description := findings, severity := severity,
         fixTarget := frontendFixTargets .wrongHandle,
         fixHint := "Adjust assignHandles() in elkLayout.ts" }]
    else
      [{ source := .backend, defect_type := .wrongConnection, passType := passType,
         description := if findings = "" then "Connection mismatch" else findings,
         severity := severity * (1 / 2), fixTarget := "ARCHITECTURE_TEMPLATES",
         fixHint := "Check edge definitions in Mermaid code" }]
  else if passType = "styling" then
    [{ source := .frontend, defect_type := .wrongColor, passType := passType,
       description := if findings = "" then "Styling mismatch" else findings,
       severity := severity, fixTarget := frontendFixTargets .wrongColor,
       fixHint := "Adjust LAYER_COLORS or STAGE_COLORS in mermaidToReactFlow.ts" }]
  else []

/-- Embeds `DefectClassifier._llm_classification` (defect_classifier.py lines
344-377), which builds a prompt but always returns the empty list. -/
def llmClassification (_passType : String) (_pr : PassResult)
    (_defaultSource : DefectSource) : List Defect := []

/-- Embeds `DefectClassifier._analyze_pass_failure` (defect_classifier.py
lines 172-201): severity is `(100 - score)/100 * weight`, rule-based defects
first, then the (always empty) LLM defects when the score is below 60 and the
LLM is enabled (`use_llm` defaults to true). -/
def analyzePassFailure (passType : String) (pr : PassResult) : List Defect :=
  let defaultSource := passToSourceMap passType
  let severity : ℚ := (100 - pr.score) / 100 * pr.pass_type.weight
  ruleBasedClassification passType pr defaultSource severity
    ++ (if pr.score < 60 then llmClassification passType pr defaultSource else [])

/-- Single failing threshold used by `DefectClassifier.diagnose`
(defect_classifier.py line 138): a pass is analyzed iff its score is below 80. -/
def classifierFailingThreshold : ℚ := 80

/-- Defect list derived by `DefectClassifier.diagnose` (defect_classifier.py
lines 134-142): every pass scoring below 80 is analyzed, in dict order. -/
def diagnoseDefects (er : EvalResult) : List Defect :=
  er.pass_results.flatMap (fun e =>
    if e.2.score < classifierFailingThreshold then analyzePassFailure e.1 e.2 else [])

/-- Stable descending insertion by severity (helper for
`_generate_recommendations`, Python `sorted(..., key=severity, reverse=True)`). -/
def insertBySeverityDesc (d : Defect) : List Defect → List Defect
  | [] => [d]
  | e :: t => if e.severity < d.severity then d :: e :: t else e :: insertBySeverityDesc d t

/-- Stable descending sort by severity. -/
def sortBySeverityDesc (l : List Defect) : List Defect :=
  l.foldl (fun acc d => insertBySeverityDesc d acc) []

/-- Embeds `DefectClassifier._generate_recommendations` (defect_classifier.py
lines 379-406): top five defects by severity, rendered as one-line strings. -/
def generateRecommendations (backendDefects frontendDefects : List Defect) : List String :=
  ((sortBySeverityDesc (backendDefects ++ frontendDefects)).take 5).map (fun d =>
    if d.source = DefectSource.backend then
      "[BACKEND] " ++ d.defect_type.value ++ ": " ++ d.fixHint
    else
      "[FRONTEND] Fix " ++ d.fixTarget ++ ": " ++ d.fixHint)

/-- Embeds `DefectClassifier.diagnose` (defect_classifier.py lines 127-170):
derive defects from failing passes, partition by source, pick the primary
source by summed severity (ties default to backend), and render the fix
recommendations. -/
def diagnoseClassifier (er : EvalResult) : DiagnosisResult :=
  let defects := diagnoseDefects er
  let backendDefects := defects.filter (fun d => decide (d.source = DefectSource.backend))
  let frontendDefects := defects.filter (fun d => decide (d.source = DefectSource.frontend))
  let backendSeverity : ℚ := (backendDefects.map Defect.severity).sum
  let frontendSeverity : ℚ := (frontendDefects.map Defect.severity).sum
  let primary : DefectSource :=
    if backendSeverity > frontendSeverity then .backend
    else if frontendSeverity > backendSeverity then .frontend
    else .backend
  { defects := defects
    primarySource := primary
    backendDefects := backendDefects
    frontendDefects := frontendDefects
    recommendedFixes := generateRecommendations backendDefects frontendDefects }

/-- Root cause categories mapped to skills (`RootCause` in
unified_convergence_loop.py). -/
inductive RootCause where
  | agentSpec
  | semanticView
  | frontendCode
  | mermaidTemplate
  | unknown
deriving DecidableEq, Repr

/-- Skills to invoke based on root cause (`SkillTarget`). -/
inductive SkillTarget where
  | cortexAgent
  | semanticView
  | laneLayoutDebugger
  | snowgramDebugger
  | directFix
deriving DecidableEq, Repr

/-- Track repeated failures for gutter detection (`FailureRecord`); the
dataclass default for `count` is 1. -/
structure FailureRecord where
  defectKey : String
  count : ℕ
  iterations : List ℕ
  lastAction : String
deriving DecidableEq, Repr

/-- Persistent state across iterations (`ConvergenceState`); the two dict
fields are insertion-ordered association lists. -/
structure ConvergenceState where
  iteration : ℕ
  scores : List (String × ℚ)
  failureCounts : List (String × FailureRecord)
  guardrails : List String
  converged : Bool
  lastAction : String
deriving DecidableEq, Repr

/-- Loop constant `MAX_ITERATIONS`. -/
def maxIterations : ℕ := 10

/-- Loop constant `TARGET_SCORE`. -/
def loopTargetScore : ℚ := 95

/-- Loop constant `GUTTER_THRESHOLD`: three identical failures force
escalation. -/
def gutterThreshold : ℕ := 3

/-- Per-pass score thresholds of the loop (`PASS_THRESHOLDS`, read with
`.get(name, 80)`). -/
def passThresholds (name : String) : ℚ :=
  if name = "components" then 90
  else if name = "connections" then 85
  else if name = "layout" then 70
  else if name = "badges" then 90
  else if name = "styling" then 80
  else if name = "structure" then 80
  else 80

/-- Root cause mapping based on the failing pass (`ROOT_CAUSE_MAP`, read with
`.get(name, RootCause.UNKNOWN)`). -/
def rootCauseMap (name : String) : RootCause :=
  if name = "components" then .semanticView
  else if name = "connections" then .agentSpec
  else if name = "layout" then .frontendCode
  else if name = "badges" then .mermaidTemplate
  else if name = "styling" then .mermaidTemplate
  else if name = "structure" then .agentSpec
  else .unknown

/-- Skill mapping for root causes (`SKILL_MAP`). -/
def skillMap : RootCause → SkillTarget
  | .agentSpec => .cortexAgent
  | .semanticView => .semanticView
  | .frontendCode => .laneLayoutDebugger
  | .mermaidTemplate => .directFix
  | .unknown => .snowgramDebugger

/-- Dict lookup on the `failure_counts` association list. -/
def findRec : List (String × FailureRecord) → String → Option FailureRecord
  | [], _ => none
  | p :: t, k => if p.1 = k then some p.2 else findRec t k

/-- In-place dict update of the `failure_counts` association list. -/
def updateRec (l : List (String × FailureRecord)) (k : String) (r : FailureRecord) :
    List (String × FailureRecord) :=
  l.map (fun p => if p.1 = k then (p.1, r) else p)

/-- Failing passes of an evaluation: name, score and defects of every pass
scoring below its per-pass threshold (diagnose_root_cause lines 588-594). -/
def failingPasses (er : EvalResult) : List (String × ℚ × List String) :=
  er.pass_results.filterMap (fun e =>
    if e.2.score < passThresholds e.1 then some (e.1, e.2.score, e.2.defects) else none)

/-- Stable ascending insertion by score (Python `list.sort(key=score)` is
stable). -/
def insertByScoreAsc (x : String × ℚ × List String) :
    List (String × ℚ × List String) → List (String × ℚ × List String)
  | [] => [x]
  | y :: t => if y.2.1 > x.2.1 then x :: y :: t else y :: insertByScoreAsc x t

/-- Stable ascending sort by score. -/
def sortByScoreAsc (l : List (String × ℚ × List String)) :
    List (String × ℚ × List String) :=
  l.foldl (fun acc x => insertByScoreAsc x acc) []

/-- Worst failing pass: head of the score-sorted failing passes. -/
def worstFailingOf (er : EvalResult) : Option (String × ℚ × List String) :=
  (sortByScoreAsc (failingPasses er)).head?

/-- Normalized defect signature of a worst failing pass: the pass name, a
colon, and the first defect string (or the literal unknown). -/
def keyOfWorst (w : String × ℚ × List String) : String :=
  w.1 ++ ":" ++ (match w.2.2 with | [] => "unknown" | d :: _ => d)

/-- Defect key an evaluation result produces in `diagnose_root_cause`, when
it has at least one failing pass. -/
def defectKeyOf (er : EvalResult) : Option String := (worstFailingOf er).map keyOfWorst

/-- Guardrail entry `_add_guardrail` appends to `state.guardrails`: the
trigger text, a colon, and the instruction text. -/
def guardrailEntry (worstPass : String) (count : ℕ) : String :=
  "Repeated " ++ worstPass ++ " failure: Direct fixes failed " ++ toString count
    ++ "x. Escalate to bundled skill."

/-- Embeds `UnifiedConvergenceLoop.diagnose_root_cause`
(unified_convergence_loop.py lines 581-639) as a state transformer: returns
the updated `ConvergenceState` together with the root cause, skill target and
defect description the Python method returns.  The method never reads the
overall score or the remaining iteration budget. -/
def diagnoseRootCause (st : ConvergenceState) (er : EvalResult) :
    ConvergenceState × RootCause × SkillTarget × String :=
  match worstFailingOf er with
  | none => (st, .unknown, .directFix, "No failures detected")
  | some w =>
    let wp := w.1
    let ws := w.2.1
    let ds := w.2.2
    let rc := rootCauseMap wp
    let key := keyOfWorst w
    let stepped : ConvergenceState × RootCause :=
      match findRec st.failureCounts key with
      | some r =>
        let r2 : FailureRecord :=
          { r with count := r.count + 1, iterations := r.iterations ++ [st.iteration] }
        let fc2 := updateRec st.failureCounts key r2
        if r2.count ≥ gutterThreshold then
          ({ st with
              failureCounts := fc2,
              guardrails := st.guardrails ++ [guardrailEntry wp r2.count] },
           if rc = .mermaidTemplate then .frontendCode else rc)
        else ({ st with failureCounts := fc2 }, rc)
      | none =>
        let newRec : FailureRecord :=
          { defectKey := key, count := 1, iterations := [st.iteration], lastAction := "" }
        ({ st with failureCounts := st.failureCounts ++ [(key, newRec)] }, rc)
    let desc : String :=
      wp ++ " at " ++ fmtQ ws ++ "% (threshold " ++ fmtQ (passThresholds wp) ++ "%)"
        ++ (match ds with | [] => "" | d :: _ => ": " ++ d)
    (stepped.1, stepped.2, skillMap stepped.2, desc)

/-- Gutter flag reported by `output_coco_yaml` (unified_convergence_loop.py
lines 669-672): some failure record has reached the gutter threshold. -/
def gutterDetected (st : ConvergenceState) : Bool :=
  st.failureCounts.any (fun p => decide (p.2.count ≥ gutterThreshold))

/-- Concrete generated-image measurements: a well-formed rendering (no empty
boxes, balanced density, four correctly-placed badges of each colour). -/
def genA : GenInfo :=
  { emptyBoxes := [], density := 20 / 100, textRegions := 10,
    chaos := { totalDensity := 20 / 100, q1 := 20 / 100, q2 := 20 / 100, q3 := 20 / 100,
               q4 := 20 / 100, leftThird := 20 / 100, middleThird := 20 / 100,
               rightThird := 20 / 100, emptyCells := 0 },
    cohBands := 4, cohChaotic := false, cohFrac := 9 / 10,
    purpleBadges := 4, blueBadges := 4,
    purpleCentroids := [(10, 50), (12, 60), (14, 70), (16, 80)],
    blueCentroids := [(50, 50), (52, 60), (54, 70), (56, 80)], width := 100 }

/-- Concrete reference-image measurements matching `genA`. -/
def refA : RefInfo :=
  { density := 20 / 100, textRegions := 20, purpleBadges := 8, blueBadges := 8,
    ssimScore := 1 / 2, aspectDiff := 0 }

/-- Concrete Mermaid-code measurements with every check satisfied. -/
def codeA : CodeInfo :=
  { hasSubgraph := fun _ => true, hasComponent := fun _ => true,
    totalConnections := 30, labeledEdges := 5, hasFlowLabel := fun _ => true,
    hasClassDef := fun _ => true, hasColor := fun _ => true, styleCount := 6,
    hasFlowchartLR := true, hasFlowchartTB := false, laneSubgraphCount := 4,
    hasBadgeDef := fun _ => true, hasLaneBadgeClass := true, hasSectionBadgeClass := true }

/-- Evaluation inputs whose components pass scores exactly 80 (10 visible text
regions trigger the minimum-label penalty) while every other pass scores 100. -/
def inpA : EvalInputs := { gen := some genA, ref := some refA, code := some codeA }

/-- Like `genA` but with 20 text regions, so the components pass also passes. -/
def genB : GenInfo := { genA with textRegions := 20 }

/-- Evaluation inputs of a run with no Mermaid source text: connections scores
75 and styling 70, both with empty findings, exactly as `_eval_connections` /
`_eval_styling` produce on the no-code path. -/
def inpB : EvalInputs := { gen := some genB, ref := some refA, code := none }

/-- Concrete failing layout pass used to exercise the gutter logic. -/
def prLayoutFail : PassResult :=
  { pass_type := EvalPass.layout, score := 10, findings := [],
    defects := ["chaos defect"], suggestions := [] }

/-- Concrete evaluation result whose only failing pass is `prLayoutFail`. -/
def erGutter : EvalResult :=
  { pass_results := [("layout", prLayoutFail)], overall_score := 10,
    converged := false, iteration := 0 }

/-- Fresh convergence state (loop start). -/
def stFresh : ConvergenceState :=
  { iteration := 0, scores := [], failureCounts := [], guardrails := [],
    converged := false, lastAction := "" }

/-- Nonnegativity of an if-then-else from nonnegativity of both branches. -/
theorem iteNonneg {c : Prop} [Decidable c] {a b : ℚ} (ha : 0 ≤ a) (hb : 0 ≤ b) :
    0 ≤ if c then a else b := by
  split <;> assumption

/-- The computable `pyMax` agrees with `max`. -/
theorem pyMax_eq_max (a b : ℚ) : pyMax a b = max a b := (max_def a b).symm

/-- The computable `pyMin` agrees with `min`. -/
theorem pyMin_eq_min (a b : ℚ) : pyMin a b = min a b := (min_def a b).symm

/-- Visual structure penalty is nonnegative. -/
theorem structureVisualPenalty_nonneg (gen : Option GenInfo) (ref : Option RefInfo) :
    0 ≤ structureVisualPenalty gen ref := by
  rcases gen with _ | g
  · norm_num [structureVisualPenalty]
  · simp only [structureVisualPenalty]
    have h3 : (0 : ℚ) ≤ (match ref with
        | some r => if |r.density - g.density| > 20 / 100 then (15 : ℚ) else 0
        | none => 0) := by
      rcases ref with _ | r
      · exact le_rfl
      · exact iteNonneg (by norm_num) le_rfl
    have h1 : (0 : ℚ) ≤ (if g.emptyBoxes.length > 0
        then pyMin 40 ((g.emptyBoxes.length : ℚ) * 10) else 0) := by
      rw [pyMin_eq_min]
      exact iteNonneg (le_min (by norm_num) (by positivity)) le_rfl
    have h2 : (0 : ℚ) ≤ (if g.density < 10 / 100 then (25 : ℚ)
        else if g.density < 15 / 100 then 10 else 0) :=
      iteNonneg (by norm_num) (iteNonneg (by norm_num) le_rfl)
    linarith

/-- Code structure penalty is nonnegative. -/
theorem structureCodePenalty_nonneg (code : Option CodeInfo) :
    0 ≤ structureCodePenalty code := by
  rcases code with _ | c
  · norm_num [structureCodePenalty]
  · simp only [structureCodePenalty, pyMin_eq_min]
    exact iteNonneg (le_min (by norm_num) (by positivity)) le_rfl

/-- Visual components penalty is nonnegative. -/
theorem componentsVisualPenalty_nonneg (gen : Option GenInfo) (ref : Option RefInfo) :
    0 ≤ componentsVisualPenalty gen ref := by
  rcases gen with _ | g
  · norm_num [componentsVisualPenalty]
  · simp only [componentsVisualPenalty]
    have h1 : (0 : ℚ) ≤ (match ref with
        | some r =>
          if (g.textRegions : ℚ) < (r.textRegions : ℚ) * (15 / 100) then (20 : ℚ)
          else if (g.textRegions : ℚ) < (r.textRegions : ℚ) * (25 / 100) then 10
          else 0
        | none => 0) := by
      rcases ref with _ | r
      · exact le_rfl
      · exact iteNonneg (by norm_num) (iteNonneg (by norm_num) le_rfl)
    have h2 : (0 : ℚ) ≤ (if g.textRegions < 15 then (20 : ℚ) else 0) :=
      iteNonneg (by norm_num) le_rfl
    linarith

/-- Connections penalty is nonnegative. -/
theorem connectionsPenalty_nonneg (c : CodeInfo) : 0 ≤ connectionsPenalty c := by
  simp only [connectionsPenalty]
  have h1 : (0 : ℚ) ≤ (if c.totalConnections ≥ 25 then (0 : ℚ) else 20) :=
    iteNonneg le_rfl (by norm_num)
  have h2 : (0 : ℚ) ≤ 5 *
      (((expectedFlowLabels.filter (fun l => !(c.hasFlowLabel l))).length : ℕ) : ℚ) := by
    positivity
  linarith

/-- Styling penalty is nonnegative. -/
theorem stylingPenalty_nonneg (c : CodeInfo) : 0 ≤ stylingPenalty c := by
  simp only [stylingPenalty]
  have h1 : (0 : ℚ) ≤ (stylingExpectedClasses.map (stylingClassPenalty c)).sum := by
    apply List.sum_nonneg
    intro x hx
    rcases List.mem_map.mp hx with ⟨p, _, rfl⟩
    exact iteNonneg (iteNonneg le_rfl (by norm_num)) (by norm_num)
  have h2 : (0 : ℚ) ≤ (if c.styleCount < 5 then (10 : ℚ) else 0) :=
    iteNonneg (by norm_num) le_rfl
  linarith

/-- Visual layout penalty is nonnegative. -/
theorem layoutVisualPenalty_nonneg (gen : Option GenInfo) : 0 ≤ layoutVisualPenalty gen := by
  rcases gen with _ | g
  · norm_num [layoutVisualPenalty]
  · simp only [layoutVisualPenalty]
    refine add_nonneg (add_nonneg (add_nonneg ?_ ?_) ?_) ?_
    · exact iteNonneg (by norm_num) le_rfl
    · exact iteNonneg (by norm_num) le_rfl
    · exact iteNonneg (by norm_num) (iteNonneg (by norm_num) le_rfl)
    · exact iteNonneg le_rfl (by norm_num)

/-- SSIM-section layout penalty is nonnegative. -/
theorem layoutSsimPenalty_nonneg (gen : Option GenInfo) (ref : Option RefInfo) :
    0 ≤ layoutSsimPenalty gen ref := by
  rcases gen with _ | g <;> rcases ref with _ | r <;> norm_num [layoutSsimPenalty]

/-- Code layout penalty is nonnegative. -/
theorem layoutCodePenalty_nonneg (code : Option CodeInfo) : 0 ≤ layoutCodePenalty code := by
  rcases code with _ | c
  · norm_num [layoutCodePenalty]
  · simp only [layoutCodePenalty]
    refine add_nonneg ?_ ?_
    · exact iteNonneg le_rfl (iteNonneg (by norm_num) le_rfl)
    · exact iteNonneg (by norm_num) le_rfl

/-- Visual badges penalty is nonnegative. -/
theorem badgesVisualPenalty_nonneg (gen : Option GenInfo) : 0 ≤ badgesVisualPenalty gen := by
  rcases gen with _ | g
  · norm_num [badgesVisualPenalty]
  · simp only [badgesVisualPenalty]
    refine add_nonneg (add_nonneg (add_nonneg (add_nonneg ?_ ?_) ?_) ?_) ?_
    · exact iteNonneg (iteNonneg (by norm_num) (iteNonneg (by norm_num) le_rfl)) le_rfl
    · exact iteNonneg (iteNonneg (by norm_num) (iteNonneg (by norm_num) le_rfl)) le_rfl
    · exact iteNonneg (by norm_num) (iteNonneg (by positivity) le_rfl)
    · exact iteNonneg (by norm_num) (iteNonneg (by positivity) le_rfl)
    · exact iteNonneg (by norm_num) (iteNonneg (by norm_num) le_rfl)

/-- Code badges penalty is nonnegative. -/
theorem badgesCodePenalty_nonneg (code : Option CodeInfo) : 0 ≤ badgesCodePenalty code := by
  rcases code with _ | c
  · norm_num [badgesCodePenalty]
  · exact iteNonneg le_rfl (by norm_num)

/-- Bounds of the structure pass score. -/
theorem evalStructure_score_bounds (gen : Option GenInfo) (ref : Option RefInfo)
    (code : Option CodeInfo) :
    0 ≤ (evalStructure gen ref code).score ∧ (evalStructure gen ref code).score ≤ 100 := by
  have h : (evalStructure gen ref code).score
      = pyMax 0 (100 - structureVisualPenalty gen ref - structureCodePenalty code) := rfl
  rw [h, pyMax_eq_max]
  refine ⟨le_max_left 0 _, max_le (by norm_num) ?_⟩
  have h1 := structureVisualPenalty_nonneg gen ref
  have h2 := structureCodePenalty_nonneg code
  linarith

/-- Bounds of the components pass score. -/
theorem evalComponents_score_bounds (gen : Option GenInfo) (ref : Option RefInfo)
    (code : Option CodeInfo) :
    0 ≤ (evalComponents gen ref code).score ∧ (evalComponents gen ref code).score ≤ 100 := by
  have h : (evalComponents gen ref code).score
      = pyMax 0 (pyMin 100 (componentsRawScore gen ref code)) := rfl
  rw [h, pyMax_eq_max, pyMin_eq_min]
  exact ⟨le_max_left 0 _, max_le (by norm_num) (min_le_left _ _)⟩

/-- Bounds of the connections pass score. -/
theorem evalConnections_score_bounds (code : Option CodeInfo) :
    0 ≤ (evalConnections code).score ∧ (evalConnections code).score ≤ 100 := by
  rcases code with _ | c
  · have h : (evalConnections none).score = pyMax 0 75 := rfl
    rw [h, pyMax_eq_max]
    exact ⟨le_max_left 0 _, by norm_num⟩
  · have h : (evalConnections (some c)).score = pyMax 0 (100 - connectionsPenalty c) := rfl
    rw [h, pyMax_eq_max]
    refine ⟨le_max_left 0 _, max_le (by norm_num) ?_⟩
    have h1 := connectionsPenalty_nonneg c
    linarith

/-- Bounds of the styling pass score. -/
theorem evalStyling_score_bounds (code : Option CodeInfo) :
    0 ≤ (evalStyling code).score ∧ (evalStyling code).score ≤ 100 := by
  rcases code with _ | c
  · have h : (evalStyling none).score = pyMax 0 70 := rfl
    rw [h, pyMax_eq_max]
    exact ⟨le_max_left 0 _, by norm_num⟩
  · have h : (evalStyling (some c)).score = pyMax 0 (100 - stylingPenalty c) := rfl
    rw [h, pyMax_eq_max]
    refine ⟨le_max_left 0 _, max_le (by norm_num) ?_⟩
    have h1 := stylingPenalty_nonneg c
    linarith

/-- Bounds of the layout pass score. -/
theorem evalLayout_score_bounds (gen : Option GenInfo) (ref : Option RefInfo)
    (code : Option CodeInfo) :
    0 ≤ (evalLayout gen ref code).score ∧ (evalLayout gen ref code).score ≤ 100 := by
  have h : (evalLayout gen ref code).score
      = pyMax 0 (100 - layoutVisualPenalty gen - layoutSsimPenalty gen ref
        - layoutCodePenalty code) := rfl
  rw [h, pyMax_eq_max]
  refine ⟨le_max_left 0 _, max_le (by norm_num) ?_⟩
  have h1 := layoutVisualPenalty_nonneg gen
  have h2 := layoutSsimPenalty_nonneg gen ref
  have h3 := layoutCodePenalty_nonneg code
  linarith

/-- Bounds of the badges pass score. -/
theorem evalBadges_score_bounds (gen : Option GenInfo) (ref : Option RefInfo)
    (code : Option CodeInfo) :
    0 ≤ (evalBadges gen ref code).score ∧ (evalBadges gen ref code).score ≤ 100 := by
  have h : (evalBadges gen ref code).score
      = pyMax 0 (100 - badgesVisualPenalty gen - badgesCodePenalty code) := rfl
  rw [h, pyMax_eq_max]
  refine ⟨le_max_left 0 _, max_le (by norm_num) ?_⟩
  have h1 := badgesVisualPenalty_nonneg gen
  have h2 := badgesCodePenalty_nonneg code
  linarith

/-- Overall score of `evaluate` as the explicit six-term weighted sum. -/
theorem evaluate_overall_eq (targetScore : ℚ) (iteration : ℕ) (inp : EvalInputs) :
    (evaluate targetScore iteration inp).overall_score
      = (evalStructure inp.gen inp.ref inp.code).score * EvalPass.structure_.weight
      + (evalComponents inp.gen inp.ref inp.code).score * EvalPass.components.weight
      + (evalConnections inp.code).score * EvalPass.connections.weight
      + (evalStyling inp.code).score * EvalPass.styling.weight
      + (evalLayout inp.gen inp.ref inp.code).score * EvalPass.layout.weight
      + (evalBadges inp.gen inp.ref inp.code).score * EvalPass.badges.weight := by
  have e1 : (evalStructure inp.gen inp.ref inp.code).pass_type = EvalPass.structure_ := rfl
  have e2 : (evalComponents inp.gen inp.ref inp.code).pass_type = EvalPass.components := rfl
  have e3 : (evalConnections inp.code).pass_type = EvalPass.connections := by
    rcases h : inp.code with _ | c <;> rfl
  have e4 : (evalStyling inp.code).pass_type = EvalPass.styling := by
    rcases h : inp.code with _ | c <;> rfl
  have e5 : (evalLayout inp.gen inp.ref inp.code).pass_type = EvalPass.layout := rfl
  have e6 : (evalBadges inp.gen inp.ref inp.code).pass_type = EvalPass.badges := rfl
  simp only [evaluate, PassResult.weightedScore, List.map_cons, List.map_nil,
    List.sum_cons, List.sum_nil, e1, e2, e3, e4, e5, e6]
  ring

/-- C1: for every evaluation, `overall_score` equals the weighted sum of the
six pass scores with the fixed weights (structure 0.15, components 0.25,
connections 0.20, styling 0.15, layout 0.15, badges 0.10) which sum to 1, and
`converged` holds exactly when `overall_score` reaches the caller-supplied
`target_score`, whose constructor default is 95.0. -/
theorem overall_score_weighted_sum_and_convergence (targetScore : ℚ) (iteration : ℕ)
    (inp : EvalInputs) :
    ((evaluate targetScore iteration inp).overall_score
      = (evalStructure inp.gen inp.ref inp.code).score * EvalPass.structure_.weight
      + (evalComponents inp.gen inp.ref inp.code).score * EvalPass.components.weight
      + (evalConnections inp.code).score * EvalPass.connections.weight
      + (evalStyling inp.code).score * EvalPass.styling.weight
      + (evalLayout inp.gen inp.ref inp.code).score * EvalPass.layout.weight
      + (evalBadges inp.gen inp.ref inp.code).score * EvalPass.badges.weight)
    ∧ ((evaluate targetScore iteration inp).converged = true
        ↔ (evaluate targetScore iteration inp).overall_score ≥ targetScore)
    ∧ (EvalPass.structure_.weight + EvalPass.components.weight + EvalPass.connections.weight
        + EvalPass.styling.weight + EvalPass.layout.weight + EvalPass.badges.weight = 1)
    ∧ defaultTargetScore = 95 := by
  refine ⟨evaluate_overall_eq targetScore iteration inp, ?_, by norm_num [EvalPass.weight], rfl⟩
  simp only [evaluate]
  exact decide_eq_true_iff

/-- C2: for every input, each of the six pass scores lies in `[0, 100]`, and
consequently the overall score lies in `[0, 100]`. -/
theorem pass_scores_and_overall_bounded (targetScore : ℚ) (iteration : ℕ) (inp : EvalInputs) :
    (∀ e ∈ (evaluate targetScore iteration inp).pass_results,
        0 ≤ e.2.score ∧ e.2.score ≤ 100)
    ∧ 0 ≤ (evaluate targetScore iteration inp).overall_score
    ∧ (evaluate targetScore iteration inp).overall_score ≤ 100 := by
  have h1 := evalStructure_score_bounds inp.gen inp.ref inp.code
  have h2 := evalComponents_score_bounds inp.gen inp.ref inp.code
  have h3 := evalConnections_score_bounds inp.code
  have h4 := evalStyling_score_bounds inp.code
  have h5 := evalLayout_score_bounds inp.gen inp.ref inp.code
  have h6 := evalBadges_score_bounds inp.gen inp.ref inp.code
  refine ⟨?_, ?_, ?_⟩
  · intro e he
    simp only [evaluate, List.mem_cons, List.not_mem_nil, or_false] at he
    rcases he with rfl | rfl | rfl | rfl | rfl | rfl
    · exact h1
    · exact h2
    · exact h3
    · exact h4
    · exact h5
    · exact h6
  · rw [evaluate_overall_eq]
    simp only [EvalPass.weight]
    obtain ⟨a1, b1⟩ := h1; obtain ⟨a2, b2⟩ := h2; obtain ⟨a3, b3⟩ := h3
    obtain ⟨a4, b4⟩ := h4; obtain ⟨a5, b5⟩ := h5; obtain ⟨a6, b6⟩ := h6
    linarith
  · rw [evaluate_overall_eq]
    simp only [EvalPass.weight]
    obtain ⟨a1, b1⟩ := h1; obtain ⟨a2, b2⟩ := h2; obtain ⟨a3, b3⟩ := h3
    obtain ⟨a4, b4⟩ := h4; obtain ⟨a5, b5⟩ := h5; obtain ⟨a6, b6⟩ := h6
    linarith

/-- Witness for C2: at the concrete inputs `inpA` the components entry of the
evaluation satisfies the bounds, and so does the overall score. -/
theorem pass_scores_and_overall_bounded_witness :
    (0 ≤ (evalComponents inpA.gen inpA.ref inpA.code).score
      ∧ (evalComponents inpA.gen inpA.ref inpA.code).score ≤ 100)
    ∧ 0 ≤ (evaluate 95 0 inpA).overall_score
    ∧ (evaluate 95 0 inpA).overall_score ≤ 100 :=
  ⟨(pass_scores_and_overall_bounded 95 0 inpA).1
      ("components", evalComponents inpA.gen inpA.ref inpA.code)
      (by exact List.mem_cons_of_mem _ (List.mem_cons_self _ _)),
   (pass_scores_and_overall_bounded 95 0 inpA).2⟩

/-- C7 amended: every `EvalResult` produced by `VisualEvaluator.evaluate`
contains all six pass results, keyed in order; the zero-score `EvalResult`
recorded on render failure, however, has an empty `pass_results` mapping. -/
theorem evaluate_produces_all_six_passes :
    (∀ (targetScore : ℚ) (iteration : ℕ) (inp : EvalInputs),
        (evaluate targetScore iteration inp).pass_results.map Prod.fst
          = ["structure", "components", "connections", "styling", "layout", "badges"])
    ∧ ∀ iteration : ℕ, (renderFailureEvalResult iteration).pass_results = [] :=
  ⟨fun _ _ _ => rfl, fun _ => rfl⟩

/-- Counterexample for C7 as stated: the zero-score `EvalResult` recorded when
the render collaborator fails does not contain the six pass results; its
`pass_results` mapping is empty. -/
theorem render_failure_eval_result_missing_passes :
    (renderFailureEvalResult 1).pass_results.map Prod.fst
      ≠ ["structure", "components", "connections", "styling", "layout", "badges"]
    ∧ (renderFailureEvalResult 1).pass_results.length = 0 := by
  exact ⟨by decide, rfl⟩

/-- Minimum of the score-fold lies in the candidate list. -/
theorem foldlMin_mem (rest : List PassResult) (r : PassResult) :
    rest.foldl (fun best p => if p.score < best.score then p else best) r = r ∨
    rest.foldl (fun best p => if p.score < best.score then p else best) r ∈ rest := by
  induction rest generalizing r with
  | nil => exact Or.inl rfl
  | cons a t ih =>
    simp only [List.foldl_cons]
    rcases ih (if a.score < r.score then a else r) with h | h
    · rw [h]
      split
      · exact Or.inr (List.mem_cons_self a t)
      · exact Or.inl rfl
    · exact Or.inr (List.mem_cons_of_mem a h)

/-- The score-fold result is a lower bound of the seed and of every candidate. -/
theorem foldlMin_le (rest : List PassResult) (r : PassResult) :
    (rest.foldl (fun best p => if p.score < best.score then p else best) r).score ≤ r.score ∧
    ∀ q ∈ rest,
      (rest.foldl (fun best p => if p.score < best.score then p else best) r).score ≤ q.score := by
  induction rest generalizing r with
  | nil => exact ⟨le_rfl, by simp⟩
  | cons a t ih =>
    simp only [List.foldl_cons]
    obtain ⟨h1, h2⟩ := ih (if a.score < r.score then a else r)
    constructor
    · refine le_trans h1 ?_
      split
      · exact le_of_lt (by assumption)
      · exact le_rfl
    · intro q hq
      rcases List.mem_cons.mp hq with rfl | hq
      · refine le_trans h1 ?_
        split
        · exact le_rfl
        · exact le_of_not_lt (by assumption)
      · exact h2 q hq

/-- C10: on a non-empty `pass_results` mapping, `lowest_scoring_pass` returns
one of the stored pass results whose score is a lower bound of every stored
score; on the empty mapping built on render failure it has no result (Python
`min` raises on an empty sequence). -/
theorem lowest_scoring_pass_spec (er : EvalResult) :
    (er.pass_results ≠ [] →
      ∃ p, er.lowestScoringPass = some p
        ∧ p ∈ er.pass_results.map Prod.snd
        ∧ ∀ q ∈ er.pass_results.map Prod.snd, p.score ≤ q.score)
    ∧ (er.pass_results = [] → er.lowestScoringPass = none) := by
  constructor
  · intro hne
    cases hmap : er.pass_results.map Prod.snd with
    | nil => exact absurd (List.map_eq_nil_iff.mp hmap) hne
    | cons r rest =>
      refine ⟨rest.foldl (fun best p => if p.score < best.score then p else best) r, ?_, ?_, ?_⟩
      · simp [EvalResult.lowestScoringPass, hmap]
      · rcases foldlMin_mem rest r with h | h
        · rw [h]; exact List.mem_cons_self _ _
        · exact List.mem_cons_of_mem _ h
      · intro q hq
        rcases List.mem_cons.mp hq with rfl | hq
        · exact (foldlMin_le rest q).1
        · exact (foldlMin_le rest r).2 q hq
  · intro h
    simp [EvalResult.lowestScoringPass, h]

/-- Witness for C10 at concrete evaluation results: a singleton mapping and
the empty render-failure mapping. -/
theorem lowest_scoring_pass_spec_witness :
    (∃ p, erGutter.lowestScoringPass = some p
      ∧ p ∈ erGutter.pass_results.map Prod.snd
      ∧ ∀ q ∈ erGutter.pass_results.map Prod.snd, p.score ≤ q.score)
    ∧ (renderFailureEvalResult 0).lowestScoringPass = none :=
  ⟨(lowest_scoring_pass_spec erGutter).1 (by decide),
   (lowest_scoring_pass_spec (renderFailureEvalResult 0)).2 rfl⟩

/-- C5: badge position quality equals `correctly_placed / total_badges_found * 100`
whenever at least one badge cluster is detected, and is `0` (the division is
guarded and never performed) when zero badge clusters of either marker type
are detected. -/
theorem badge_position_quality_spec (i : PositionInputs) :
    ((detectBadgePositions i).totalBadgesFound = 0 →
      (detectBadgePositions i).positionQualityScore = 0)
    ∧ ((detectBadgePositions i).totalBadgesFound > 0 →
      (detectBadgePositions i).positionQualityScore
        = (((detectBadgePositions i).purpleInLeftZone
            + (detectBadgePositions i).blueInCenterZone : ℕ) : ℚ)
          / ((detectBadgePositions i).totalBadgesFound : ℚ) * 100) := by
  constructor
  · intro h
    simp only [detectBadgePositions] at h ⊢
    simp [h]
  · intro h
    simp only [detectBadgePositions] at h ⊢
    rw [if_pos h]

/-- Witness for C5: an image with no detected badge clusters yields quality 0,
and the well-placed eight-badge image `genA` yields the quotient formula. -/
theorem badge_position_quality_spec_witness :
    ((detectBadgePositions
        { purpleCentroids := [], blueCentroids := [], width := 100 }).positionQualityScore = 0)
    ∧ ((detectBadgePositions (badgePositionInputs genA)).positionQualityScore
        = (((detectBadgePositions (badgePositionInputs genA)).purpleInLeftZone
            + (detectBadgePositions (badgePositionInputs genA)).blueInCenterZone : ℕ) : ℚ)
          / ((detectBadgePositions (badgePositionInputs genA)).totalBadgesFound : ℚ) * 100) :=
  ⟨(badge_position_quality_spec _).1 rfl,
   (badge_position_quality_spec (badgePositionInputs genA)).2 (by decide)⟩

/-- C9: any image whose overall content density is 0.01 (below the minimum
density threshold 0.05) receives `chaos_score >= 30` from the low-density
penalty alone, and for every image `is_chaotic` holds exactly when
`chaos_score >= 40`. -/
theorem layout_chaos_low_density_and_threshold :
    (∀ i : ChaosInputs, i.totalDensity = 1 / 100 →
        (detectLayoutChaos i).chaosScore ≥ 30)
    ∧ ∀ i : ChaosInputs,
        ((detectLayoutChaos i).isChaotic = true ↔ (detectLayoutChaos i).chaosScore ≥ 40) := by
  constructor
  · intro i h
    simp only [detectLayoutChaos, minContentDensity, h]
    rw [if_pos (by norm_num)]
    have h2 : (0 : ℚ) ≤ (if ((i.q1 - (i.q1 + i.q2 + i.q3 + i.q4) / 4) ^ 2
        + (i.q2 - (i.q1 + i.q2 + i.q3 + i.q4) / 4) ^ 2
        + (i.q3 - (i.q1 + i.q2 + i.q3 + i.q4) / 4) ^ 2
        + (i.q4 - (i.q1 + i.q2 + i.q3 + i.q4) / 4) ^ 2) / 4 > 1 / 100
        then (20 : ℚ) else 0) := iteNonneg (by norm_num) le_rfl
    have h3 : (0 : ℚ) ≤ (if (decide (i.leftThird > if (1 : ℚ) / 100 > 2 / 100
          then 1 / 100 * (3 / 10) else 1 / 100)
        && decide (i.middleThird > if (1 : ℚ) / 100 > 2 / 100
          then 1 / 100 * (3 / 10) else 1 / 100)
        && decide (i.rightThird > if (1 : ℚ) / 100 > 2 / 100
          then 1 / 100 * (3 / 10) else 1 / 100)) = true
        then (0 : ℚ) else 25) := iteNonneg le_rfl (by norm_num)
    have h4 : (0 : ℚ) ≤ (if (i.emptyCells : ℚ) / 16 > 4 / 10 then (25 : ℚ) else 0) :=
      iteNonneg (by norm_num) le_rfl
    linarith
  · intro i
    simp only [detectLayoutChaos]
    exact decide_eq_true_iff

/-- Witness for C9 at a concrete near-blank image. -/
theorem layout_chaos_low_density_witness :
    (detectLayoutChaos
      { totalDensity := 1 / 100, q1 := 0, q2 := 0, q3 := 0, q4 := 0,
        leftThird := 0, middleThird := 0, rightThird := 0, emptyCells := 16 }).chaosScore ≥ 30
    ∧ ((detectLayoutChaos
      { totalDensity := 1 / 100, q1 := 0, q2 := 0, q3 := 0, q4 := 0,
        leftThird := 0, middleThird := 0, rightThird := 0, emptyCells := 16 }).isChaotic = true
      ↔ (detectLayoutChaos
      { totalDensity := 1 / 100, q1 := 0, q2 := 0, q3 := 0, q4 := 0,
        leftThird := 0, middleThird := 0, rightThird := 0,
        emptyCells := 16 }).chaosScore ≥ 40) :=
  ⟨layout_chaos_low_density_and_threshold.1 _ rfl,
   layout_chaos_low_density_and_threshold.2 _⟩


/-- Structure-pass score at the concrete inputs `genA`/`refA`/`codeA`. -/
theorem structureScoreA : (evalStructure (some genA) (some refA) (some codeA)).score = 100 := by
  have h : (evalStructure (some genA) (some refA) (some codeA)).score
      = pyMax 0 (100 - structureVisualPenalty (some genA) (some refA)
        - structureCodePenalty (some codeA)) := rfl
  rw [h]
  have h1 : structureVisualPenalty (some genA) (some refA) = 0 := by
    norm_num [structureVisualPenalty, genA, refA]
  have h2 : structureCodePenalty (some codeA) = 0 := by
    norm_num [structureCodePenalty, codeA, expectedSubgraphs, List.filter]
  rw [h1, h2, pyMax_eq_max]
  norm_num

/-- Components-pass score at the concrete inputs: exactly 80 (10 visible text
regions trigger only the minimum-label penalty of 20). -/
theorem componentsScoreA : (evalComponents (some genA) (some refA) (some codeA)).score = 80 := by
  have h : (evalComponents (some genA) (some refA) (some codeA)).score
      = pyMax 0 (pyMin 100 (componentsRawScore (some genA) (some refA) (some codeA))) := rfl
  rw [h]
  have h1 : componentsRawScore (some genA) (some refA) (some codeA) = 80 := by
    norm_num [componentsRawScore, componentsVisualPenalty, genA, refA, codeA,
      streamingExpectedComponents, List.filter]
  rw [h1, pyMax_eq_max, pyMin_eq_min]
  norm_num

/-- Connections-pass score at the concrete code measurements `codeA`. -/
theorem connectionsScoreA : (evalConnections (some codeA)).score = 100 := by
  have h : (evalConnections (some codeA)).score = pyMax 0 (100 - connectionsPenalty codeA) := rfl
  rw [h]
  have h1 : connectionsPenalty codeA = 0 := by
    norm_num [connectionsPenalty, codeA, expectedFlowLabels, List.filter]
  rw [h1, pyMax_eq_max]
  norm_num

/-- Styling-pass score at the concrete code measurements `codeA`. -/
theorem stylingScoreA : (evalStyling (some codeA)).score = 100 := by
  have h : (evalStyling (some codeA)).score = pyMax 0 (100 - stylingPenalty codeA) := rfl
  rw [h]
  have h1 : stylingPenalty codeA = 0 := by
    norm_num [stylingPenalty, stylingClassPenalty, stylingExpectedClasses, codeA]
  rw [h1, pyMax_eq_max]
  norm_num

/-- Layout-pass score at the concrete inputs. -/
theorem layoutScoreA : (evalLayout (some genA) (some refA) (some codeA)).score = 100 := by
  have h : (evalLayout (some genA) (some refA) (some codeA)).score
      = pyMax 0 (100 - layoutVisualPenalty (some genA)
        - layoutSsimPenalty (some genA) (some refA) - layoutCodePenalty (some codeA)) := rfl
  rw [h]
  have h1 : layoutVisualPenalty (some genA) = 0 := by
    norm_num [layoutVisualPenalty, detectLayoutChaos, genA, minContentDensity,
      maxHorizontalBands]
  have h2 : layoutSsimPenalty (some genA) (some refA) = 0 := rfl
  have h3 : layoutCodePenalty (some codeA) = 0 := by
    norm_num [layoutCodePenalty, codeA]
  rw [h1, h2, h3, pyMax_eq_max]
  norm_num

/-- Badges-pass score at the concrete inputs. -/
theorem badgesScoreA : (evalBadges (some genA) (some refA) (some codeA)).score = 100 := by
  have h : (evalBadges (some genA) (some refA) (some codeA)).score
      = pyMax 0 (100 - badgesVisualPenalty (some genA) - badgesCodePenalty (some codeA)) := rfl
  rw [h]
  have h1 : badgesVisualPenalty (some genA) = 0 := by
    norm_num [badgesVisualPenalty, detectBadgePositions, badgePositionInputs, genA,
      badgeLeftZoneThreshold, badgeCenterZoneStart, badgeCenterZoneEnd, List.filter]
  have h2 : badgesCodePenalty (some codeA) = 0 := by
    norm_num [badgesCodePenalty, codeA]
  rw [h1, h2, pyMax_eq_max]
  norm_num

/-- All six pass scores of the `inpA` evaluation. -/
theorem passScoresA : ((evaluate 95 0 inpA).pass_results.map (fun e => (e.1, e.2.score)))
    = [("structure", 100), ("components", 80), ("connections", 100), ("styling", 100),
       ("layout", 100), ("badges", 100)] := by
  have hg : inpA.gen = some genA := rfl
  have hr : inpA.ref = some refA := rfl
  have hc : inpA.code = some codeA := rfl
  simp only [evaluate, List.map_cons, List.map_nil, hg, hr, hc, structureScoreA,
    componentsScoreA, connectionsScoreA, stylingScoreA, layoutScoreA, badgesScoreA]

/-- The classifier derives no defect from the `inpA` evaluation. -/
theorem diagnoseDefectsA : diagnoseDefects (evaluate 95 0 inpA) = [] := by
  have hg : inpA.gen = some genA := rfl
  have hr : inpA.ref = some refA := rfl
  have hc : inpA.code = some codeA := rfl
  simp only [diagnoseDefects, evaluate, List.flatMap_cons, List.flatMap_nil, hg, hr, hc,
    structureScoreA, componentsScoreA, connectionsScoreA, stylingScoreA, layoutScoreA,
    badgesScoreA, classifierFailingThreshold]
  norm_num

/-- Connections-pass score with no Mermaid code: 75, with empty findings. -/
theorem connectionsScoreNoCode : (evalConnections none).score = 75 := by
  have h : (evalConnections none).score = pyMax 0 75 := rfl
  rw [h, pyMax_eq_max]
  norm_num

/-- Styling-pass score with no Mermaid code: 70, with empty findings. -/
theorem stylingScoreNoCode : (evalStyling none).score = 70 := by
  have h : (evalStyling none).score = pyMax 0 70 := rfl
  rw [h, pyMax_eq_max]
  norm_num

/-- Structure-pass score at `genB` with no code. -/
theorem structureScoreB : (evalStructure (some genB) (some refA) none).score = 100 := by
  have h : (evalStructure (some genB) (some refA) none).score
      = pyMax 0 (100 - structureVisualPenalty (some genB) (some refA)
        - structureCodePenalty none) := rfl
  rw [h]
  have h1 : structureVisualPenalty (some genB) (some refA) = 0 := by
    norm_num [structureVisualPenalty, genB, genA, refA]
  have h2 : structureCodePenalty none = 0 := rfl
  rw [h1, h2, pyMax_eq_max]
  norm_num

/-- Components-pass score at `genB` (20 text regions) with no code. -/
theorem componentsScoreB : (evalComponents (some genB) (some refA) none).score = 100 := by
  have h : (evalComponents (some genB) (some refA) none).score
      = pyMax 0 (pyMin 100 (componentsRawScore (some genB) (some refA) none)) := rfl
  rw [h]
  have h1 : componentsRawScore (some genB) (some refA) none = 100 := by
    norm_num [componentsRawScore, componentsVisualPenalty, genB, genA, refA]
  rw [h1, pyMax_eq_max, pyMin_eq_min]
  norm_num

/-- Layout-pass score at `genB` with no code. -/
theorem layoutScoreB : (evalLayout (some genB) (some refA) none).score = 100 := by
  have h : (evalLayout (some genB) (some refA) none).score
      = pyMax 0 (100 - layoutVisualPenalty (some genB)
        - layoutSsimPenalty (some genB) (some refA) - layoutCodePenalty none) := rfl
  rw [h]
  have h1 : layoutVisualPenalty (some genB) = 0 := by
    norm_num [layoutVisualPenalty, detectLayoutChaos, genB, genA, minContentDensity,
      maxHorizontalBands]
  have h2 : layoutSsimPenalty (some genB) (some refA) = 0 := rfl
  have h3 : layoutCodePenalty none = 0 := rfl
  rw [h1, h2, h3, pyMax_eq_max]
  norm_num

/-- Badges-pass score at `genB` with no code. -/
theorem badgesScoreB : (evalBadges (some genB) (some refA) none).score = 100 := by
  have h : (evalBadges (some genB) (some refA) none).score
      = pyMax 0 (100 - badgesVisualPenalty (some genB) - badgesCodePenalty none) := rfl
  rw [h]
  have h1 : badgesVisualPenalty (some genB) = 0 := by
    norm_num [badgesVisualPenalty, detectBadgePositions, badgePositionInputs, genB, genA,
      badgeLeftZoneThreshold, badgeCenterZoneStart, badgeCenterZoneEnd, List.filter]
  have h2 : badgesCodePenalty none = 0 := rfl
  rw [h1, h2, pyMax_eq_max]
  norm_num

/-- All six pass scores of the `inpB` evaluation (no Mermaid code). -/
theorem passScoresB : ((evaluate 95 0 inpB).pass_results.map (fun e => (e.1, e.2.score)))
    = [("structure", 100), ("components", 100), ("connections", 75), ("styling", 70),
       ("layout", 100), ("badges", 100)] := by
  have hg : inpB.gen = some genB := rfl
  have hr : inpB.ref = some refA := rfl
  have hc : inpB.code = none := rfl
  simp only [evaluate, List.map_cons, List.map_nil, hg, hr, hc, structureScoreB,
    componentsScoreB, connectionsScoreNoCode, stylingScoreNoCode, layoutScoreB, badgesScoreB]

/-- Pass-failure analysis of the no-code connections result: the generic
fallback defect, attributed to the backend source, with halved severity
`(100 - 75)/100 * 0.20 * 0.5 = 1/40`. -/
theorem analyzeConnectionsNoCode : analyzePassFailure "connections" (evalConnections none)
    = [{ source := DefectSource.backend, defect_type := DefectType.wrongConnection,
         passType := "connections", description := "Connection mismatch", severity := 1 / 40,
         fixTarget := "ARCHITECTURE_TEMPLATES",
         fixHint := "Check edge definitions in Mermaid code" }] := by
  have hf : (evalConnections none).findings = [] := rfl
  have hw : (evalConnections none).pass_type = EvalPass.connections := rfl
  simp only [analyzePassFailure, llmClassification, ite_self, List.append_nil,
    ruleBasedClassification, hf, hw, connectionsScoreNoCode, List.isEmpty_nil]
  norm_num [strLower, strContains, seqContains, EvalPass.weight]
  rw [if_neg (by decide), if_neg (by decide), if_neg (by decide), if_neg (by decide)]

/-- Pass-failure analysis of the no-code styling result: the generic styling
defect with severity `(100 - 70)/100 * 0.15 = 9/200`. -/
theorem analyzeStylingNoCode : analyzePassFailure "styling" (evalStyling none)
    = [{ source := DefectSource.frontend, defect_type := DefectType.wrongColor,
         passType := "styling", description := "Styling mismatch", severity := 9 / 200,
         fixTarget := "frontend/src/lib/mermaidToReactFlow.ts",
         fixHint := "Adjust LAYER_COLORS or STAGE_COLORS in mermaidToReactFlow.ts" }] := by
  have hf : (evalStyling none).findings = [] := rfl
  have hw : (evalStyling none).pass_type = EvalPass.styling := rfl
  simp only [analyzePassFailure, llmClassification, ite_self, List.append_nil,
    ruleBasedClassification, hf, hw, stylingScoreNoCode, List.isEmpty_nil]
  norm_num [strLower, strContains, seqContains, EvalPass.weight, frontendFixTargets]
  rw [if_neg (by decide), if_neg (by decide), if_neg (by decide), if_neg (by decide),
    if_neg (by decide)]

/-- Defect list the classifier derives from the `inpB` evaluation. -/
theorem diagnoseDefectsB : diagnoseDefects (evaluate 95 0 inpB)
    = [{ source := DefectSource.backend, defect_type := DefectType.wrongConnection,
         passType := "connections", description := "Connection mismatch", severity := 1 / 40,
         fixTarget := "ARCHITECTURE_TEMPLATES",
         fixHint := "Check edge definitions in Mermaid code" },
       { source := DefectSource.frontend, defect_type := DefectType.wrongColor,
         passType := "styling", description := "Styling mismatch", severity := 9 / 200,
         fixTarget := "frontend/src/lib/mermaidToReactFlow.ts",
         fixHint := "Adjust LAYER_COLORS or STAGE_COLORS in mermaidToReactFlow.ts" }] := by
  have hg : inpB.gen = some genB := rfl
  have hr : inpB.ref = some refA := rfl
  have hc : inpB.code = none := rfl
  simp only [diagnoseDefects, evaluate, List.flatMap_cons, List.flatMap_nil, hg, hr, hc,
    structureScoreB, componentsScoreB, connectionsScoreNoCode, stylingScoreNoCode,
    layoutScoreB, badgesScoreB, classifierFailingThreshold]
  norm_num [analyzeConnectionsNoCode, analyzeStylingNoCode]

set_option maxHeartbeats 1000000 in
/-- Every defect the pass-failure analysis derives is tagged with the
originating pass name. -/
theorem analyzePassFailure_passType (name : String) (pr : PassResult) :
    ∀ d ∈ analyzePassFailure name pr, d.passType = name := by
  intro d hd
  simp only [analyzePassFailure, llmClassification, ite_self, List.append_nil] at hd
  unfold ruleBasedClassification at hd
  split_ifs at hd <;>
    first
      | exact absurd hd (List.not_mem_nil d)
      | (simp only [List.mem_singleton] at hd; subst hd; rfl)
      | (dsimp only at hd
         split at hd <;>
           first
             | (simp only [List.mem_singleton] at hd; subst hd; rfl)
             | (split at hd <;> (simp only [List.mem_singleton] at hd; subst hd; rfl)))

/-- Rule-based classification of any of the six pass names never returns the
empty defect list. -/
theorem ruleBased_of_six_ne_nil (name : String) (pr : PassResult) (ds : DefectSource)
    (sev : ℚ)
    (h : name ∈ ["structure", "components", "connections", "styling", "layout", "badges"]) :
    ruleBasedClassification name pr ds sev ≠ [] := by
  fin_cases h
  · unfold ruleBasedClassification
    rw [if_pos rfl]
    (repeat' split) <;> exact List.cons_ne_nil _ _
  · unfold ruleBasedClassification
    rw [if_neg (by decide), if_pos rfl]
    (repeat' split) <;> exact List.cons_ne_nil _ _
  · unfold ruleBasedClassification
    rw [if_neg (by decide), if_neg (by decide), if_neg (by decide), if_neg (by decide),
      if_pos rfl]
    (repeat' split) <;> exact List.cons_ne_nil _ _
  · unfold ruleBasedClassification
    rw [if_neg (by decide), if_neg (by decide), if_neg (by decide), if_neg (by decide),
      if_neg (by decide), if_pos rfl]
    (repeat' split) <;> exact List.cons_ne_nil _ _
  · unfold ruleBasedClassification
    rw [if_neg (by decide), if_neg (by decide), if_neg (by decide), if_pos rfl]
    (repeat' split) <;> exact List.cons_ne_nil _ _
  · unfold ruleBasedClassification
    rw [if_neg (by decide), if_neg (by decide), if_pos rfl]
    (repeat' split) <;> exact List.cons_ne_nil _ _

/-- Pass-failure analysis of any of the six pass names never returns the
empty defect list. -/
theorem analyzePassFailure_of_six_ne_nil (name : String) (pr : PassResult)
    (h : name ∈ ["structure", "components", "connections", "styling", "layout", "badges"]) :
    analyzePassFailure name pr ≠ [] := by
  simp only [analyzePassFailure, llmClassification, ite_self, List.append_nil]
  exact ruleBased_of_six_ne_nil name pr (passToSourceMap name)
    ((100 - pr.score) / 100 * pr.pass_type.weight) h

/-- Counterexample for C8 as stated: on the reachable no-Mermaid-code run
`inpB` the connections pass fails at 75 with empty findings, no connections
rule matches, and the generic fallback defect is attributed to the backend
source even though the default source mapping of the connections pass is
frontend. -/
theorem connections_fallback_source_counterexample :
    ((diagnoseDefects (evaluate 95 0 inpB)).map (fun d => (d.passType, d.source)))
      = [("connections", DefectSource.backend), ("styling", DefectSource.frontend)]
    ∧ passToSourceMap "connections" = DefectSource.frontend
    ∧ DefectSource.backend ≠ DefectSource.frontend := by
  refine ⟨?_, by decide, by decide⟩
  rw [diagnoseDefectsB]
  rfl

/-- C8 amended: for every failing pass among the six, the rule-based analysis
produces at least one defect; with empty findings (so no specific substring
rule matches) exactly one generic defect is emitted rather than the pass
being dropped, carrying the frontend source for layout and styling and the
backend source for the other passes -- in particular the connections fallback
carries backend although `PASS_TO_SOURCE_MAP` assigns connections to
frontend. -/
theorem failing_pass_always_yields_defect (name : String) (pr : PassResult)
    (ds : DefectSource) (sev : ℚ)
    (h : name ∈ ["structure", "components", "connections", "styling", "layout", "badges"]) :
    ruleBasedClassification name pr ds sev ≠ []
    ∧ (pr.findings = [] →
        (ruleBasedClassification name pr ds sev).map Defect.source
          = [if name = "layout" ∨ name = "styling" then DefectSource.frontend
             else DefectSource.backend])
    ∧ passToSourceMap "connections" = DefectSource.frontend := by
  have e0 : strLower "" = "" := by decide
  have e1 : strContains "" "subgraph" = false := by decide
  have e2 : strContains "" "missing" = false := by decide
  have e3 : strContains "" "node" = false := by decide
  have e4 : strContains "" "column" = false := by decide
  have e5 : strContains "" "position" = false := by decide
  have e6 : strContains "" "spacing" = false := by decide
  have e7 : strContains "" "handle" = false := by decide
  have e8 : strContains "" "direction" = false := by decide
  refine ⟨ruleBased_of_six_ne_nil name pr ds sev h, ?_, by decide⟩
  intro hf
  fin_cases h
  · unfold ruleBasedClassification
    rw [if_pos rfl, hf]
    norm_num [e0, e1, e2]
    rw [if_neg (by decide)]
  · unfold ruleBasedClassification
    rw [if_neg (by decide), if_pos rfl, hf]
    norm_num [e0, e2, e3]
    rw [if_neg (by decide)]
  · unfold ruleBasedClassification
    rw [if_neg (by decide), if_neg (by decide), if_neg (by decide), if_neg (by decide),
      if_pos rfl, hf]
    norm_num [e0, e7, e8]
    rw [if_neg (by decide)]
  · unfold ruleBasedClassification
    rw [if_neg (by decide), if_neg (by decide), if_neg (by decide), if_neg (by decide),
      if_neg (by decide), if_pos rfl, hf]
    norm_num [e0]
  · unfold ruleBasedClassification
    rw [if_neg (by decide), if_neg (by decide), if_neg (by decide), if_pos rfl, hf]
    norm_num [e0, e4, e5, e6]
  · unfold ruleBasedClassification
    rw [if_neg (by decide), if_neg (by decide), if_pos rfl, hf]
    norm_num [e0]
    rw [if_neg (by decide)]

/-- Witness for C8 at the reachable no-code connections pass result. -/
theorem failing_pass_always_yields_defect_witness :
    ruleBasedClassification "connections" (evalConnections none) DefectSource.frontend
        (1 / 20) ≠ []
    ∧ (ruleBasedClassification "connections" (evalConnections none) DefectSource.frontend
        (1 / 20)).map Defect.source
        = [if "connections" = "layout" ∨ "connections" = "styling" then DefectSource.frontend
           else DefectSource.backend]
    ∧ passToSourceMap "connections" = DefectSource.frontend :=
  have h := failing_pass_always_yields_defect "connections" (evalConnections none)
    DefectSource.frontend (1 / 20) (by decide)
  ⟨h.1, h.2.1 rfl, h.2.2⟩

/-- Counterexample for C6 as stated: on the reachable no-Mermaid-code run
`inpB` the generic connections defect carries severity 1/40, not the
`(100 - 75)/100 * 0.20 = 1/20` that the claimed formula demands. -/
theorem connections_generic_severity_counterexample :
    ((diagnoseDefects (evaluate 95 0 inpB)).map (fun d => (d.passType, d.severity)))
      = [("connections", 1 / 40), ("styling", 9 / 200)]
    ∧ ((evaluate 95 0 inpB).pass_results.map (fun e => (e.1, e.2.score)))
      = [("structure", 100), ("components", 100), ("connections", 75), ("styling", 70),
         ("layout", 100), ("badges", 100)]
    ∧ (1 / 40 : ℚ) ≠ (100 - 75) / 100 * EvalPass.connections.weight := by
  refine ⟨?_, passScoresB, ?_⟩
  · rw [diagnoseDefectsB]
    rfl
  · norm_num [EvalPass.weight]

set_option maxHeartbeats 1000000 in
/-- C6 amended: every defect the classifier derives from a failing pass has
severity `(100 - pass.score)/100 * pass.weight`, except the generic
connections fallback (no handle/direction finding), whose severity is
additionally halved. -/
theorem defect_severity_formula (name : String) (pr : PassResult) :
    ∀ d ∈ analyzePassFailure name pr,
      d.severity = (100 - pr.score) / 100 * pr.pass_type.weight
      ∨ (name = "connections"
          ∧ d.severity = (100 - pr.score) / 100 * pr.pass_type.weight * (1 / 2)) := by
  intro d hd
  simp only [analyzePassFailure, llmClassification, ite_self, List.append_nil] at hd
  unfold ruleBasedClassification at hd
  split_ifs at hd <;>
    first
      | exact absurd hd (List.not_mem_nil d)
      | (simp only [List.mem_singleton] at hd; subst hd;
         first
           | exact Or.inl rfl
           | exact Or.inr ⟨by assumption, rfl⟩)
      | (dsimp only at hd
         split at hd <;>
           first
             | (simp only [List.mem_singleton] at hd; subst hd;
                first
                  | exact Or.inl rfl
                  | exact Or.inr ⟨by assumption, rfl⟩)
             | (split at hd <;>
                 (simp only [List.mem_singleton] at hd; subst hd;
                  first
                    | exact Or.inl rfl
                    | exact Or.inr ⟨by assumption, rfl⟩)))

/-- Witness for C6 at the reachable no-code connections pass result and its
concrete generic defect. -/
theorem defect_severity_formula_witness :
    ({ source := DefectSource.backend, defect_type := DefectType.wrongConnection,
       passType := "connections", description := "Connection mismatch", severity := 1 / 40,
       fixTarget := "ARCHITECTURE_TEMPLATES",
       fixHint := "Check edge definitions in Mermaid code" } : Defect).severity
        = (100 - (evalConnections none).score) / 100 * (evalConnections none).pass_type.weight
    ∨ ("connections" = "connections"
        ∧ ({ source := DefectSource.backend, defect_type := DefectType.wrongConnection,
             passType := "connections", description := "Connection mismatch",
             severity := 1 / 40, fixTarget := "ARCHITECTURE_TEMPLATES",
             fixHint := "Check edge definitions in Mermaid code" } : Defect).severity
          = (100 - (evalConnections none).score) / 100
            * (evalConnections none).pass_type.weight * (1 / 2)) :=
  defect_severity_formula "connections" (evalConnections none)
    { source := DefectSource.backend, defect_type := DefectType.wrongConnection,
      passType := "connections", description := "Connection mismatch", severity := 1 / 40,
      fixTarget := "ARCHITECTURE_TEMPLATES",
      fixHint := "Check edge definitions in Mermaid code" }
    (by rw [analyzeConnectionsNoCode]; exact List.mem_cons_self _ _)

/-- Entries of an association list with nodup keys are determined by their
keys. -/
theorem eq_of_fst_eq_of_nodup {l : List (String × PassResult)}
    (hnd : (l.map Prod.fst).Nodup) {a b : String × PassResult}
    (ha : a ∈ l) (hb : b ∈ l) (h : a.1 = b.1) : a = b := by
  induction l with
  | nil => cases ha
  | cons x t ih =>
    simp only [List.map_cons, List.nodup_cons] at hnd
    obtain ⟨hx, ht⟩ := hnd
    rcases List.mem_cons.mp ha with rfl | ha₀ <;> rcases List.mem_cons.mp hb with rfl | hb₀
    · rfl
    · exact absurd (h ▸ List.mem_map_of_mem Prod.fst hb₀) hx
    · exact absurd (List.mem_map_of_mem Prod.fst ha₀) (by rw [h]; exact hx)
    · exact ih ht ha₀ hb₀

/-- Counterexample for C4 as stated: on the reachable run `inpA` the
components pass scores 80, strictly below its per-pass threshold 90, yet the
classifier derives no defect at all. -/
theorem per_pass_threshold_counterexample :
    ((evaluate 95 0 inpA).pass_results.map (fun e => (e.1, e.2.score)))
      = [("structure", 100), ("components", 80), ("connections", 100), ("styling", 100),
         ("layout", 100), ("badges", 100)]
    ∧ diagnoseDefects (evaluate 95 0 inpA) = []
    ∧ (80 : ℚ) < passThresholds "components" := by
  refine ⟨passScoresA, diagnoseDefectsA, ?_⟩
  have h : passThresholds "components" = 90 := rfl
  rw [h]
  norm_num

/-- C4 amended: the classifier derives one or more defects exactly for those
passes whose score is below the uniform failing threshold 80 used by
`DefectClassifier.diagnose`; the per-pass thresholds (layout 70, badges 90,
components 90, connections 85, styling 80, structure 80) belong to the
convergence controller, not to the classifier. -/
theorem classifier_uniform_threshold (er : EvalResult)
    (hnd : (er.pass_results.map Prod.fst).Nodup) :
    ∀ e ∈ er.pass_results,
      e.1 ∈ ["structure", "components", "connections", "styling", "layout", "badges"] →
      (e.2.score < classifierFailingThreshold ↔
        ∃ d ∈ diagnoseDefects er, d.passType = e.1) := by
  intro e he hsix
  constructor
  · intro hlt
    obtain ⟨d, hd⟩ := List.exists_mem_of_ne_nil _ (analyzePassFailure_of_six_ne_nil e.1 e.2 hsix)
    refine ⟨d, ?_, analyzePassFailure_passType e.1 e.2 d hd⟩
    simp only [diagnoseDefects, List.mem_flatMap]
    refine ⟨e, he, ?_⟩
    rw [if_pos hlt]
    exact hd
  · rintro ⟨d, hd, hpt⟩
    simp only [diagnoseDefects, List.mem_flatMap] at hd
    obtain ⟨a, ha, hda⟩ := hd
    by_cases hlt : a.2.score < classifierFailingThreshold
    · rw [if_pos hlt] at hda
      have hpa := analyzePassFailure_passType a.1 a.2 d hda
      have hae : a = e := eq_of_fst_eq_of_nodup hnd ha he (by rw [← hpa, hpt])
      rwa [← hae]
    · rw [if_neg hlt] at hda
      exact absurd hda (List.not_mem_nil d)

/-- Witness for C4 at the reachable run `inpB` and its connections entry. -/
theorem classifier_uniform_threshold_witness :
    (evalConnections inpB.code).score < classifierFailingThreshold ↔
      ∃ d ∈ diagnoseDefects (evaluate 95 0 inpB), d.passType = "connections" :=
  classifier_uniform_threshold (evaluate 95 0 inpB) (by decide)
    ("connections", evalConnections inpB.code)
    (List.mem_cons_of_mem _ (List.mem_cons_of_mem _ (List.mem_cons_self _ _)))
    (by decide)

/-- Appending a fresh key to the failure dict makes it found. -/
theorem findRec_append_of_none {l : List (String × FailureRecord)} {k : String}
    (h : findRec l k = none) (r : FailureRecord) :
    findRec (l ++ [(k, r)]) k = some r := by
  induction l with
  | nil => simp [findRec]
  | cons p t ih =>
    simp only [findRec] at h
    simp only [List.cons_append, findRec]
    by_cases hpk : p.1 = k
    · rw [if_pos hpk] at h
      exact absurd h (by simp)
    · rw [if_neg hpk] at h
      rw [if_neg hpk]
      exact ih h

/-- Updating a found key stores the new record. -/
theorem findRec_update_self {l : List (String × FailureRecord)} {k : String}
    {r : FailureRecord} (h : findRec l k = some r) (r2 : FailureRecord) :
    findRec (updateRec l k r2) k = some r2 := by
  induction l with
  | nil => simp [findRec] at h
  | cons p t ih =>
    simp only [findRec] at h
    simp only [updateRec, List.map_cons]
    by_cases hpk : p.1 = k
    · rw [if_pos hpk]
      simp only [findRec]
      rw [if_pos hpk]
    · rw [if_neg hpk] at h
      rw [if_neg hpk]
      simp only [findRec]
      rw [if_neg hpk]
      exact ih h

/-- A found record is stored under its key. -/
theorem findRec_mem {l : List (String × FailureRecord)} {k : String} {r : FailureRecord}
    (h : findRec l k = some r) : (k, r) ∈ l := by
  induction l with
  | nil => simp [findRec] at h
  | cons p t ih =>
    simp only [findRec] at h
    by_cases hpk : p.1 = k
    · rw [if_pos hpk] at h
      obtain ⟨a, b⟩ := p
      simp only [Option.some.injEq] at h
      simp only at hpk
      subst hpk
      subst h
      exact List.mem_cons_self _ _
    · rw [if_neg hpk] at h
      exact List.mem_cons_of_mem _ (ih h)

/-- Members of an updated dict are either the new record or old members. -/
theorem mem_updateRec {l : List (String × FailureRecord)} {k : String}
    {r2 : FailureRecord} : ∀ q ∈ updateRec l k r2, q.2 = r2 ∨ q ∈ l := by
  intro q hq
  simp only [updateRec, List.mem_map] at hq
  obtain ⟨p, hp, hq⟩ := hq
  by_cases hpk : p.1 = k
  · rw [if_pos hpk] at hq
    left
    rw [← hq]
  · rw [if_neg hpk] at hq
    right
    rw [← hq]
    exact hp

/-- After updating a found key, the new pair is a member. -/
theorem mem_updateRec_of_found {l : List (String × FailureRecord)} {k : String}
    {r : FailureRecord} (h : findRec l k = some r) (r2 : FailureRecord) :
    (k, r2) ∈ updateRec l k r2 := by
  simp only [updateRec, List.mem_map]
  exact ⟨(k, r), findRec_mem h, by simp⟩

/-- The gutter flag is false while every record is below the threshold. -/
theorem gutterDetected_eq_false {st : ConvergenceState}
    (h : ∀ p ∈ st.failureCounts, p.2.count < gutterThreshold) :
    gutterDetected st = false := by
  simp only [gutterDetected, List.any_eq_false, decide_eq_true_eq]
  intro p hp
  exact Nat.not_le_of_lt (h p hp)

/-- The gutter flag is true as soon as one record reaches the threshold. -/
theorem gutterDetected_eq_true_of_mem {st : ConvergenceState} {q : String × FailureRecord}
    (hq : q ∈ st.failureCounts) (hc : gutterThreshold ≤ q.2.count) :
    gutterDetected st = true := by
  simp only [gutterDetected, List.any_eq_true, decide_eq_true_eq]
  exact ⟨q, hq, hc⟩

/-- State update of `diagnose_root_cause` on a fresh defect key: a new
failure record with count 1 is appended, no guardrail is written. -/
theorem diagnoseRootCause_new_state (st : ConvergenceState) (er : EvalResult)
    (w : String × ℚ × List String) (hw : worstFailingOf er = some w)
    (hf : findRec st.failureCounts (keyOfWorst w) = none) :
    (diagnoseRootCause st er).1 =
      { st with
        failureCounts :=
          st.failureCounts
            ++ [(keyOfWorst w,
                  { defectKey := keyOfWorst w, count := 1, iterations := [st.iteration],
                    lastAction := "" })] } := by
  simp only [diagnoseRootCause, hw, hf]

/-- State update of `diagnose_root_cause` on an already-recorded defect key:
the count is incremented; at the gutter threshold exactly one guardrail entry
is appended. -/
theorem diagnoseRootCause_found_state (st : ConvergenceState) (er : EvalResult)
    (w : String × ℚ × List String) (hw : worstFailingOf er = some w)
    (r : FailureRecord) (hf : findRec st.failureCounts (keyOfWorst w) = some r) :
    (diagnoseRootCause st er).1 =
      (if r.count + 1 ≥ gutterThreshold then
        { st with
          failureCounts :=
            updateRec st.failureCounts (keyOfWorst w)
              { r with
                count := r.count + 1, iterations := r.iterations ++ [st.iteration] },
          guardrails := st.guardrails ++ [guardrailEntry w.1 (r.count + 1)] }
      else
        { st with
          failureCounts :=
            updateRec st.failureCounts (keyOfWorst w)
              { r with
                count := r.count + 1,
                iterations := r.iterations ++ [st.iteration] } }) := by
  simp only [diagnoseRootCause, hw, hf]
  split <;> rfl

/-- C3: when the same defect key (not previously recorded) is observed by the
convergence controller diagnosis on three consecutive iterations, no gutter
is reported and no guardrail is written at the first two occurrences, while
the third occurrence reaches the gutter threshold 3: the gutter flag turns
true and exactly one guardrail entry is appended.  The diagnosis step never
reads the overall score or the remaining iteration budget, so the theorem
quantifies over arbitrary evaluation results producing the key. -/
theorem gutter_escalates_on_third_occurrence
    (st : ConvergenceState) (er1 er2 er3 : EvalResult) (k : String)
    (hbound : ∀ p ∈ st.failureCounts, p.2.count < gutterThreshold)
    (hk : findRec st.failureCounts k = none)
    (h1 : defectKeyOf er1 = some k) (h2 : defectKeyOf er2 = some k)
    (h3 : defectKeyOf er3 = some k) :
    gutterDetected (diagnoseRootCause st er1).1 = false
    ∧ gutterDetected (diagnoseRootCause (diagnoseRootCause st er1).1 er2).1 = false
    ∧ gutterDetected (diagnoseRootCause
        (diagnoseRootCause (diagnoseRootCause st er1).1 er2).1 er3).1 = true
    ∧ (diagnoseRootCause st er1).1.guardrails = st.guardrails
    ∧ (diagnoseRootCause (diagnoseRootCause st er1).1 er2).1.guardrails = st.guardrails
    ∧ (diagnoseRootCause
        (diagnoseRootCause (diagnoseRootCause st er1).1 er2).1 er3).1.guardrails.length
      = st.guardrails.length + 1 := by
  simp only [defectKeyOf, Option.map_eq_some'] at h1 h2 h3
  obtain ⟨w1, hw1, hkey1⟩ := h1
  obtain ⟨w2, hw2, hkey2⟩ := h2
  obtain ⟨w3, hw3, hkey3⟩ := h3
  have hst1 := diagnoseRootCause_new_state st er1 w1 hw1 (by rw [hkey1]; exact hk)
  rw [hkey1] at hst1
  have hg1 : (diagnoseRootCause st er1).1.guardrails = st.guardrails := by rw [hst1]
  have hb1 : ∀ p ∈ (diagnoseRootCause st er1).1.failureCounts,
      p.2.count < gutterThreshold := by
    rw [hst1]
    intro p hp
    rcases List.mem_append.mp hp with hp | hp
    · exact hbound p hp
    · simp only [List.mem_singleton] at hp
      subst hp
      norm_num [gutterThreshold]
  have hfind1 : findRec (diagnoseRootCause st er1).1.failureCounts k
      = some { defectKey := k, count := 1, iterations := [st.iteration],
               lastAction := "" } := by
    rw [hst1]
    exact findRec_append_of_none hk _
  have hst2 := diagnoseRootCause_found_state (diagnoseRootCause st er1).1 er2 w2 hw2 _
    (by rw [hkey2]; exact hfind1)
  rw [hkey2, if_neg (by norm_num [gutterThreshold])] at hst2
  have hg2 : (diagnoseRootCause (diagnoseRootCause st er1).1 er2).1.guardrails
      = st.guardrails := by
    rw [hst2]
    exact hg1
  have hb2 : ∀ p ∈ (diagnoseRootCause (diagnoseRootCause st er1).1 er2).1.failureCounts,
      p.2.count < gutterThreshold := by
    rw [hst2]
    intro p hp
    rcases mem_updateRec p hp with hp | hp
    · rw [hp]
      norm_num [gutterThreshold]
    · exact hb1 p hp
  have hfind2 : ∃ r2, findRec
        (diagnoseRootCause (diagnoseRootCause st er1).1 er2).1.failureCounts k = some r2
      ∧ r2.count = 2 := by
    rw [hst2]
    exact ⟨_, findRec_update_self hfind1 _, by norm_num⟩
  obtain ⟨r2, hfind2, hr2⟩ := hfind2
  have hst3 := diagnoseRootCause_found_state
    (diagnoseRootCause (diagnoseRootCause st er1).1 er2).1 er3 w3 hw3 r2
    (by rw [hkey3]; exact hfind2)
  rw [hkey3, if_pos (by rw [hr2]; norm_num [gutterThreshold])] at hst3
  have hg3 : (diagnoseRootCause
      (diagnoseRootCause (diagnoseRootCause st er1).1 er2).1 er3).1.guardrails.length
      = st.guardrails.length + 1 := by
    rw [hst3]
    simp only [List.length_append, List.length_singleton]
    rw [hg2]
  have hgut3 : gutterDetected (diagnoseRootCause
      (diagnoseRootCause (diagnoseRootCause st er1).1 er2).1 er3).1 = true := by
    rw [hst3]
    refine gutterDetected_eq_true_of_mem (mem_updateRec_of_found hfind2 _) ?_
    show gutterThreshold ≤ r2.count + 1
    rw [hr2]
    norm_num [gutterThreshold]
  exact ⟨gutterDetected_eq_false hb1, gutterDetected_eq_false hb2, hgut3, hg1, hg2, hg3⟩

/-- Witness for C3: three identical failing evaluations from a fresh state. -/
theorem gutter_escalates_on_third_occurrence_witness :
    gutterDetected (diagnoseRootCause stFresh erGutter).1 = false
    ∧ gutterDetected (diagnoseRootCause (diagnoseRootCause stFresh erGutter).1 erGutter).1
      = false
    ∧ gutterDetected (diagnoseRootCause
        (diagnoseRootCause (diagnoseRootCause stFresh erGutter).1 erGutter).1 erGutter).1
      = true
    ∧ (diagnoseRootCause stFresh erGutter).1.guardrails = stFresh.guardrails
    ∧ (diagnoseRootCause (diagnoseRootCause stFresh erGutter).1 erGutter).1.guardrails
      = stFresh.guardrails
    ∧ (diagnoseRootCause
        (diagnoseRootCause (diagnoseRootCause stFresh erGutter).1 erGutter).1
          erGutter).1.guardrails.length
      = stFresh.guardrails.length + 1 :=
  gutter_escalates_on_third_occurrence stFresh erGutter erGutter erGutter
    "layout:chaos defect" (by decide) (by decide) (by decide) (by decide) (by decide)
